import Mathlib

/-
Verification development for the waffles-sticky-responses repository.

This file gives a shallow embedding of the query-routing and
analytics-computation pipeline of the repository:

  * src/data_processing.py  (DataProcessor: load, clean, unify, views)
  * src/ai_interface.py     (ConversationalInterface: pattern router)
  * src/data_model.py       (QueryBuilder: the at-risk catalog query)

Modelling conventions:

  * A pandas DataFrame is a Table: a list of column names plus a list of
    rows, each row being a positional list of cell Values. Elementwise
    column operations of the source are modelled row-wise (each row is
    transformed independently by the same per-column rules, in source
    order); this is extensionally the same computation.
  * Machine floats are modelled as rationals. The float-to-string
    round trip performed by astype(str) followed by to_numeric is
    modelled as the identity on numeric cells, which is the actual
    behaviour of the Python round trip on floats.
  * The seeded NumPy generators (np.random.seed(42)) are deterministic,
    so the sample tables they produce are modelled as fixed concrete
    tables with the faithful column sets; the concrete cell values and
    the row counts are abstracted.
  * Python exceptions are modelled with Except String; a pandas KeyError
    raised by accessing a missing column is the error string
    "KeyError: <col>". Catch-all except blocks are modelled by tryCatchE.
  * Regular-expression searches of the router are translated, pattern by
    pattern, into executable substring predicates; each definition
    carries the source regex in its doc comment. re.search only has its
    truthiness inspected by the source, so only match existence is
    modelled (greedy versus lazy quantifiers are irrelevant to that).
  * Number formatting (f-string , and .2f forms) is abstracted by a
    simple rational renderer; no claim depends on the rendered digits.
-/

/-- Cell values of a modelled DataFrame: NaN/None, numbers, strings,
booleans and parsed dates. -/
inductive Value where
  | null
  | num (q : ℚ)
  | str (s : String)
  | bool (b : Bool)
  | date (y m d : Nat)
deriving DecidableEq

/-- A row is a positional list of cells, aligned with the column list of
its table. -/
abbrev Row := List Value

/-- A modelled DataFrame: ordered column names and rows. -/
structure Table where
  cols : List String
  rows : List Row
deriving DecidableEq

/-- A table is well formed when every row has exactly one cell per
column (pandas DataFrames are rectangular). -/
def Table.WF (t : Table) : Prop := ∀ r ∈ t.rows, r.length = t.cols.length

instance (t : Table) : Decidable t.WF := by
  unfold Table.WF; infer_instance

/-- Index of the first occurrence of a column name (pandas column
lookup; the source frames have no duplicate column names). -/
def colIdx : List String → String → Nat
  | [], _ => 0
  | c :: cs, k => if c = k then 0 else colIdx cs k + 1

/-- Read the cell at position i, NaN when out of range. -/
def getV (r : Row) (i : Nat) : Value := (r.get? i).getD Value.null

/-- Apply f to the cell at position i (no-op when out of range). -/
def modAt : Nat → (Value → Value) → Row → Row
  | _, _, [] => []
  | 0, f, v :: vs => f v :: vs
  | Nat.succ i, f, v :: vs => v :: modAt i f vs

/-- Remove the element at position i. -/
def removeAt {α : Type} (i : Nat) (l : List α) : List α :=
  l.take i ++ l.drop (i + 1)

/-- KeyError message raised by pandas on a missing column. -/
def keyError (c : String) : String := "KeyError: " ++ c

/-- Decidable equality for Except results, used to evaluate the model
on concrete inputs. -/
instance exceptDecEq {ε α : Type} [DecidableEq ε] [DecidableEq α] :
    DecidableEq (Except ε α) := fun a b =>
  match a, b with
  | .ok x, .ok y =>
    if h : x = y then isTrue (by rw [h]) else isFalse (by intro hh; cases hh; exact h rfl)
  | .ok _, .error _ => isFalse (by intro hh; cases hh)
  | .error _, .ok _ => isFalse (by intro hh; cases hh)
  | .error x, .error y =>
    if h : x = y then isTrue (by rw [h]) else isFalse (by intro hh; cases hh; exact h rfl)

/-- Model of the except branch of Python try blocks over Except. -/
def tryCatchE {α : Type} (x : Except String α) (h : String → Except String α) :
    Except String α :=
  match x with
  | .ok a => .ok a
  | .error e => h e

/- ----------------------------------------------------------------
   Scalar coercions used by DataProcessor.clean_data
   ---------------------------------------------------------------- -/

def digitVal (c : Char) : Nat := c.toNat - 48

def digitsToNat (l : List Char) : Nat := l.foldl (fun a c => a * 10 + digitVal c) 0

/-- Parse an unsigned decimal numeral, the fragment of the float grammar
that pd.to_numeric accepts which matters here (digits with an optional
decimal point). The value ip.frac equals (ip * 10^k + frac) / 10^k. -/
def parseUnsigned (l : List Char) : Option ℚ :=
  let ip := l.takeWhile (fun c => c ≠ '.')
  let rest := l.dropWhile (fun c => c ≠ '.')
  match rest with
  | [] =>
    if !ip.isEmpty && ip.all Char.isDigit then some (mkRat (digitsToNat ip) 1) else none
  | _ :: frac =>
    if (!ip.isEmpty || !frac.isEmpty) && ip.all Char.isDigit && frac.all Char.isDigit
        && frac.all (fun c => c ≠ '.') then
      some (mkRat (digitsToNat ip * 10 ^ frac.length + digitsToNat frac) (10 ^ frac.length))
    else none

/-- Parse a possibly signed decimal numeral. -/
def parseDecimal (s : String) : Option ℚ :=
  match s.data with
  | '-' :: rest => (parseUnsigned rest).map Rat.neg
  | '+' :: rest => parseUnsigned rest
  | l => parseUnsigned l

/-- Model of pd.to_numeric(v, errors="coerce") on one cell: numbers pass
through, strings are parsed or become NaN, booleans become 0/1, NaN
stays NaN and datetimes coerce to NaN. -/
def toNumV : Value → Value
  | .num q => .num q
  | .str s => match parseDecimal s with | some q => .num q | none => .null
  | .bool b => .num (if b then 1 else 0)
  | .null => .null
  | .date _ _ _ => .null

/-- Model of Series.fillna(0) on one cell. -/
def fill0 : Value → Value
  | .null => .num 0
  | v => v

/-- pd.to_numeric(..., errors="coerce").fillna(0) on one cell. -/
def toNumFill0 (v : Value) : Value := fill0 (toNumV v)

/-- astype(int) truncation toward zero on a rational. -/
def truncQ (q : ℚ) : ℚ := mkRat (q.num.tdiv (q.den : Int)) 1

/-- Lower-casing done on the character list (the semantics of
str.lower() for the ASCII questions and plan names involved). -/
def lowerStr (s : String) : String := String.mk (s.data.map Char.toLower)

/-- pd.to_numeric(..., errors="coerce").fillna(0).astype(int) on one
cell (the contacts/tags/saved_replies rule). -/
def toNumIntC (v : Value) : Value :=
  match toNumV v with
  | .num q => .num (truncQ q)
  | _ => .num 0

/-- Strip currency symbols and thousands separators
(str.replace of the dollar sign and the comma). -/
def stripCurrency (s : String) : String :=
  String.mk (s.data.filter (fun c => c ≠ '$' && c ≠ ','))

/-- The average_monthly_revenue cleaning rule: astype(str), strip
currency characters, to_numeric coerce, fillna(0). On an already numeric
cell the string round trip is the identity (Python float repr parses
back exactly); NaN, boolean and datetime cells render as non-numeric
strings and therefore coerce to NaN and are filled with 0. -/
def cleanRevenueV : Value → Value
  | .num q => .num q
  | .str s =>
    (match parseDecimal (stripCurrency s) with
     | some q => Value.num q
     | none => Value.num 0)
  | _ => .num 0

/-- Parse an ISO yyyy-mm-dd date string. pd.to_datetime accepts more
formats; this models the format used by the data. -/
def parseIsoDate (s : String) : Option (Nat × Nat × Nat) :=
  match s.data with
  | [y1, y2, y3, y4, h1, m1, m2, h2, d1, d2] =>
    if h1 = '-' && h2 = '-' && [y1, y2, y3, y4, m1, m2, d1, d2].all Char.isDigit then
      some (digitsToNat [y1, y2, y3, y4], digitsToNat [m1, m2], digitsToNat [d1, d2])
    else none
  | _ => none

/-- Model of pd.to_datetime(v, errors="coerce") on one cell: parsed
dates pass through, strings parse or become NaT, everything else is
modelled as coercing to NaT. -/
def toDateV : Value → Value
  | .date y m d => .date y m d
  | .str s => (match parseIsoDate s with
               | some (y, m, d) => Value.date y m d
               | none => Value.null)
  | _ => .null

/-- Model of astype(bool) on one cell: Python truthiness (a non-zero
number, a non-empty string; NaN is a truthy float). -/
def toBoolV : Value → Value
  | .bool b => .bool b
  | .num q => .bool (decide (q ≠ 0))
  | .str s => .bool (decide (s ≠ ""))
  | .null => .bool true
  | .date _ _ _ => .bool true

/-- The plan_name rule: str.lower().map(plan_mapping).fillna(original).
Recognised variants map to the canonical four names; unrecognised
strings and non-string cells pass through unchanged. -/
def cleanPlanNameV : Value → Value
  | .str s =>
    let l := lowerStr s
    if l = "basic" then .str "Basic"
    else if l = "standard" then .str "Standard"
    else if l = "pro" then .str "Pro"
    else if l = "enterprise" then .str "Enterprise"
    else .str s
  | v => v

/-- Customer-name rule: fillna("Unknown Customer") on one cell. -/
def fillUnknownV : Value → Value
  | .null => .str "Unknown Customer"
  | v => v

/-- np.minimum on two cells; the clamp sites only ever see numbers
(the clamped columns are numerically coerced first). -/
def vmin : Value → Value → Value
  | .num x, .num y => .num (min x y)
  | a, _ => a

/-- Numeric content of a cell, 0 otherwise (used after fillna rules). -/
def qOf : Value → ℚ
  | .num q => q
  | _ => 0

/- ----------------------------------------------------------------
   DataProcessor.clean_data
   ---------------------------------------------------------------- -/

/-- Apply a per-cell rule to the named column when it is present
(the if col in df.columns guard of the source). -/
def updCol (cols : List String) (k : String) (f : Value → Value) (r : Row) : Row :=
  if k ∈ cols then modAt (colIdx cols k) f r else r

/-- Apply a list of (column, rule) pairs in order. -/
def applyRules (cols : List String) (rules : List (String × (Value → Value)))
    (r : Row) : Row :=
  rules.foldl (fun acc p => updCol cols p.1 p.2 acc) r

/-- The per-column rules of _clean_activity_table, in source order:
string-typed count columns coerced with an int cast, then the numeric
columns coerced and filled. -/
def activityRules : List (String × (Value → Value)) :=
  [("contacts", toNumIntC), ("tags", toNumIntC), ("saved_replies", toNumIntC),
   ("docs_sites", toNumFill0), ("mailboxes", toNumFill0), ("regular_users", toNumFill0),
   ("monthly_active_users", toNumFill0), ("paid_users", toNumFill0),
   ("workflows", toNumFill0), ("integrations", toNumFill0), ("beacons", toNumFill0),
   ("light_users", toNumFill0), ("all_answers_contacts", toNumFill0),
   ("all_resolutions", toNumFill0)]

/-- Elementwise clamp tgt := np.minimum(tgt, src), applied only when
both columns are present. -/
def clampCol (cols : List String) (tgt src : String) (r : Row) : Row :=
  if tgt ∈ cols ∧ src ∈ cols then
    modAt (colIdx cols tgt) (fun v => vmin v (getV r (colIdx cols src))) r
  else r

/-- Row transformation of _clean_activity_table: coercions, then the
monthly_active_users clamp, then the paid_users clamp. -/
def cleanActivityRow (cols : List String) (r : Row) : Row :=
  clampCol cols "paid_users" "regular_users"
    (clampCol cols "monthly_active_users" "regular_users"
      (applyRules cols activityRules r))

/-- DataProcessor._clean_activity_table. -/
def cleanActivity (t : Table) : Table :=
  ⟨t.cols, t.rows.map (cleanActivityRow t.cols)⟩

/-- The per-column rules of _clean_plans_table, in source order: date
parsing, revenue cleaning, plan-name mapping, boolean coercion. -/
def plansRules : List (String × (Value → Value)) :=
  [("close_date", toDateV), ("start_date", toDateV), ("end_date", toDateV),
   ("last_reply_date", toDateV),
   ("average_monthly_revenue", cleanRevenueV),
   ("plan_name", cleanPlanNameV),
   ("advanced_api_access", toBoolV), ("api_rate_limit_increase", toBoolV),
   ("advanced_security", toBoolV)]

/-- DataProcessor._clean_plans_table. -/
def cleanPlans (t : Table) : Table :=
  ⟨t.cols, t.rows.map (applyRules t.cols plansRules)⟩

/-- drop_duplicates(subset=[key]) keeping the first occurrence, keyed by
the cell at position i. -/
def dedupGo (i : Nat) (seen : List Value) : List Row → List Row
  | [] => []
  | r :: rs =>
    if getV r i ∈ seen then dedupGo i seen rs
    else r :: dedupGo i (getV r i :: seen) rs

/-- DataProcessor._clean_customers_table: fillna on customer_name, then
drop duplicate customer_id rows. Both column accesses are unguarded in
the source and raise KeyError when the column is missing. -/
def cleanCustomersE (t : Table) : Except String Table :=
  if "customer_name" ∈ t.cols then
    let rows1 := t.rows.map (modAt (colIdx t.cols "customer_name") fillUnknownV)
    if "customer_id" ∈ t.cols then
      Except.ok ⟨t.cols, dedupGo (colIdx t.cols "customer_id") [] rows1⟩
    else Except.error (keyError "customer_id")
  else Except.error (keyError "customer_name")

/-- Per-table dispatch of DataProcessor.clean_data: tables with other
names are passed through as a copy. -/
def cleanTable (name : String) (t : Table) : Except String Table :=
  if name = "customers" then cleanCustomersE t
  else if name = "activity" then Except.ok (cleanActivity t)
  else if name = "plans" then Except.ok (cleanPlans t)
  else Except.ok t

/-- DataProcessor.clean_data over the name-to-table mapping (dict
iteration order modelled by the list order). -/
def cleanData : List (String × Table) → Except String (List (String × Table))
  | [] => Except.ok []
  | (n, t) :: rest =>
    match cleanTable n t with
    | .error e => .error e
    | .ok t' =>
      match cleanData rest with
      | .error e => .error e
      | .ok rest' => .ok ((n, t') :: rest')

/- ----------------------------------------------------------------
   DataProcessor.create_unified_dataset
   ---------------------------------------------------------------- -/

/-- pandas left merge on customer_id: every left row appears once per
matching right row, or once with NaN-filled right columns when there is
no match; right columns other than the key are appended. -/
def mergeLeft (l r : Table) : Table :=
  let li := colIdx l.cols "customer_id"
  let ri := colIdx r.cols "customer_id"
  let rcols := removeAt ri r.cols
  ⟨l.cols ++ rcols,
   l.rows.flatMap (fun lr =>
     let ms := r.rows.filter (fun rr => getV rr ri == getV lr li)
     if ms.isEmpty then [lr ++ List.replicate rcols.length Value.null]
     else ms.map (fun rr => lr ++ removeAt ri rr))⟩

/-- DataProcessor.create_unified_dataset: start from customers (a
missing customers table raises KeyError), left-join activity when
present, left-join plans when present. -/
def createUnifiedDataset (cleaned : List (String × Table)) : Except String Table :=
  match cleaned.lookup "customers" with
  | none => Except.error (keyError "customers")
  | some base =>
    let u1 := match cleaned.lookup "activity" with
      | some a => mergeLeft base a
      | none => base
    let u2 := match cleaned.lookup "plans" with
      | some p => mergeLeft u1 p
      | none => u1
    Except.ok u2

/- ----------------------------------------------------------------
   Analytical views (DataProcessor.create_analytical_views)
   ---------------------------------------------------------------- -/

/-- Project a table onto a list of column names (df[available_cols]). -/
def selectCols (t : Table) (cs : List String) : Table :=
  ⟨cs, t.rows.map (fun r => cs.map (fun c => getV r (colIdx t.cols c)))⟩

/-- Append a derived column. -/
def addCol (t : Table) (c : String) (vals : List Value) : Table :=
  ⟨t.cols ++ [c], List.zipWith (fun r v => r ++ [v]) t.rows vals⟩

/-- The revenue_tier bucketing of _create_customer_summary. pd.cut with
bins [-inf, 100, 500, 2000, inf] uses right-closed intervals by default
(right=True), so the buckets are (-inf,100], (100,500], (500,2000],
(2000,inf); NaN buckets to NaN. -/
def revenueTierV : Value → Value
  | .num q =>
    if q ≤ 100 then .str "Low"
    else if q ≤ 500 then .str "Medium"
    else if q ≤ 2000 then .str "High"
    else .str "Enterprise"
  | _ => .null

def customerSummaryCols : List String :=
  ["customer_id", "customer_name", "plan_name", "average_monthly_revenue",
   "months_since_active", "billings", "regular_users", "monthly_active_users"]

/-- DataProcessor._create_customer_summary. -/
def createCustomerSummary (t : Table) : Table :=
  let available := customerSummaryCols.filter (fun c => c ∈ t.cols)
  let summary := selectCols t available
  if "average_monthly_revenue" ∈ t.cols then
    addCol summary "revenue_tier"
      (t.rows.map (fun r => revenueTierV (getV r (colIdx t.cols "average_monthly_revenue"))))
  else summary

def activityMetricsCols : List String :=
  ["customer_id", "customer_name", "plan_name", "contacts", "workflows",
   "integrations", "beacons", "all_answers_contacts", "all_resolutions"]

/-- Read a whole column, raising KeyError when it is absent (the
unguarded df[col] access). -/
def getColE (t : Table) (c : String) : Except String (List Value) :=
  if c ∈ t.cols then .ok (t.rows.map (fun r => getV r (colIdx t.cols c)))
  else .error (keyError c)

/-- engagement_score = 0.3 contacts + 0.4 workflows + 0.2 integrations
+ 0.1 beacons, with fillna(0) on each operand. -/
def engagementScore (a b c d : Value) : Value :=
  .num ((3 / 10 : ℚ) * qOf (fill0 a) + (2 / 5 : ℚ) * qOf (fill0 b)
    + (1 / 5 : ℚ) * qOf (fill0 c) + (1 / 10 : ℚ) * qOf (fill0 d))

def zip4With (f : Value → Value → Value → Value → Value) :
    List Value → List Value → List Value → List Value → List Value
  | a :: as', b :: bs, c :: cs, d :: ds => f a b c d :: zip4With f as' bs cs ds
  | _, _, _, _ => []

/-- DataProcessor._create_activity_metrics. The engagement-score branch
is guarded only on contacts and workflows; the integrations and beacons
columns are accessed unguarded, in source evaluation order, and raise
KeyError when absent. -/
def createActivityMetrics (t : Table) : Except String Table :=
  let available := activityMetricsCols.filter (fun c => c ∈ t.cols)
  let base := selectCols t available
  if "contacts" ∈ t.cols ∧ "workflows" ∈ t.cols then
    match getColE t "contacts" with
    | .error e => .error e
    | .ok cs =>
      match getColE t "workflows" with
      | .error e => .error e
      | .ok ws =>
        match getColE t "integrations" with
        | .error e => .error e
        | .ok is' =>
          match getColE t "beacons" with
          | .error e => .error e
          | .ok bs => .ok (addCol base "engagement_score" (zip4With engagementScore cs ws is' bs))
  else .ok base

/- ----------------------------------------------------------------
   DataProcessor.load_raw_data and sample data
   ---------------------------------------------------------------- -/

def fileMapping : List (String × String) :=
  [("customers", "customer.csv"), ("activity", "customer_activity.csv"),
   ("plans", "plan.csv")]

/-- DataProcessor._generate_sample_data. np.random.seed(42) makes the
generated frames deterministic, so each is modelled as a fixed concrete
table with the faithful column set (cell values and the 100-row count
abstracted to representative fixed rows; string-typed columns are kept
string-typed as in the source). -/
def generateSampleData : String → Table
  | "customers" =>
    ⟨["customer_id", "customer_name"],
     [[.str "CUST_0001", .str "Customer Company 1"],
      [.str "CUST_0002", .str "Customer Company 2"]]⟩
  | "activity" =>
    ⟨["customer_id", "docs_sites", "mailboxes", "regular_users",
      "monthly_active_users", "paid_users", "contacts", "workflows",
      "integrations", "beacons", "tags", "saved_replies", "light_users",
      "all_answers_contacts", "all_resolutions"],
     [[.str "CUST_0001", .num 3, .num 5, .num 40, .num 25, .num 20,
       .str "1200", .num 12, .num 4, .num 2, .str "55", .str "30", .num 6,
       .num 800, .num 300],
      [.str "CUST_0002", .num 2, .num 8, .num 60, .num 45, .num 30,
       .str "4500", .num 20, .num 7, .num 1, .str "80", .str "42", .num 3,
       .num 2100, .num 900]]⟩
  | "plans" =>
    ⟨["customer_id", "payment_frequency", "close_date", "start_date",
      "end_date", "months_since_active", "last_reply_date", "plan_name",
      "billings", "average_monthly_revenue", "advanced_api_access",
      "api_rate_limit_increase", "advanced_security"],
     [[.str "CUST_0001", .str "Monthly", .str "2024-01-01", .str "2020-01-01",
       .str "2025-01-01", .num 12, .str "2024-08-01", .str "Standard",
       .str "Active", .str "450.25", .num 0, .num 0, .num 1],
      [.str "CUST_0002", .str "Yearly", .str "2024-01-02", .str "2020-01-02",
       .str "2025-01-02", .num 30, .str "2024-08-02", .str "Pro",
       .str "Past Due", .str "1250.00", .num 1, .num 0, .num 1]]⟩
  | _ => ⟨[], []⟩

/-- DataProcessor.load_raw_data over an abstract file system: a present
file loads its table; a missing or unreadable file (None) falls back to
the generated sample table. The return value carries no provenance
information beyond the tables themselves. -/
def loadRawData (fs : String → Option Table) : List (String × Table) :=
  fileMapping.map (fun p =>
    (p.1, match fs p.2 with
          | some df => df
          | none => generateSampleData p.1))

/- ----------------------------------------------------------------
   QueryBuilder (data_model.py): catalog SQL and the at-risk semantics
   ---------------------------------------------------------------- -/

def sqlTopRevenueCustomers : String :=
  "SELECT c.customer_id, c.customer_name, p.plan_name, p.average_monthly_revenue, p.billings FROM customers c JOIN plans p ON c.customer_id = p.customer_id ORDER BY CAST(p.average_monthly_revenue AS FLOAT) DESC LIMIT 10"

def sqlUsageByPlan : String :=
  "SELECT p.plan_name, COUNT(c.customer_id) as customer_count, AVG(CAST(a.contacts AS FLOAT)) as avg_contacts, AVG(a.workflows) as avg_workflows, AVG(a.regular_users) as avg_regular_users, AVG(a.monthly_active_users) as avg_monthly_active_users, AVG(a.integrations) as avg_integrations, AVG(CAST(p.average_monthly_revenue AS FLOAT)) as avg_revenue FROM customers c JOIN plans p ON c.customer_id = p.customer_id JOIN activity a ON c.customer_id = a.customer_id GROUP BY p.plan_name ORDER BY avg_revenue DESC"

def sqlEngagementAnalysis : String :=
  "SELECT c.customer_id, c.customer_name, p.plan_name, a.regular_users, a.monthly_active_users, CASE WHEN a.regular_users > 0 THEN ROUND(CAST(a.monthly_active_users AS FLOAT) / a.regular_users * 100, 2) ELSE 0 END as user_activation_rate, a.contacts, a.workflows, CASE WHEN a.workflows > 0 THEN ROUND(CAST(a.contacts AS FLOAT) / a.workflows, 2) ELSE 0 END as contacts_per_workflow, CAST(p.average_monthly_revenue AS FLOAT) as revenue FROM customers c JOIN plans p ON c.customer_id = p.customer_id JOIN activity a ON c.customer_id = a.customer_id ORDER BY revenue DESC"

def sqlPlanPerformance : String :=
  "SELECT p.plan_name, COUNT(*) as total_customers, SUM(CASE WHEN p.billings = \x27Active\x27 THEN 1 ELSE 0 END) as active_customers, ROUND(AVG(CAST(p.average_monthly_revenue AS FLOAT)), 2) as avg_monthly_revenue, ROUND(SUM(CAST(p.average_monthly_revenue AS FLOAT)), 2) as total_monthly_revenue, ROUND(AVG(a.regular_users), 2) as avg_users, ROUND(AVG(CAST(a.contacts AS FLOAT)), 0) as avg_contacts, ROUND(AVG(a.workflows), 1) as avg_workflows FROM plans p JOIN activity a ON p.customer_id = a.customer_id GROUP BY p.plan_name ORDER BY total_monthly_revenue DESC"

def sqlAtRiskCustomers : String :=
  "SELECT c.customer_name, p.plan_name, CAST(p.average_monthly_revenue AS FLOAT) as revenue, p.billings as billing_status, p.months_since_active, a.monthly_active_users, a.regular_users, CASE WHEN p.billings != \x27Active\x27 THEN \x27Billing Issue\x27 WHEN a.monthly_active_users = 0 THEN \x27No Activity\x27 WHEN a.regular_users > 0 AND CAST(a.monthly_active_users AS FLOAT) / a.regular_users < 0.3 THEN \x27Low Engagement\x27 ELSE \x27Healthy\x27 END as risk_category FROM customers c JOIN plans p ON c.customer_id = p.customer_id JOIN activity a ON c.customer_id = a.customer_id WHERE p.billings != \x27Active\x27 OR a.monthly_active_users = 0 OR (a.regular_users > 0 AND CAST(a.monthly_active_users AS FLOAT) / a.regular_users < 0.3) ORDER BY revenue DESC"

def sqlFeatureAdoption : String :=
  "SELECT p.plan_name, COUNT(*) as customer_count, AVG(CASE WHEN a.integrations > 0 THEN 1.0 ELSE 0.0 END) * 100 as integration_adoption_rate, AVG(CASE WHEN a.workflows > 5 THEN 1.0 ELSE 0.0 END) * 100 as workflow_power_user_rate, AVG(CASE WHEN a.beacons > 0 THEN 1.0 ELSE 0.0 END) * 100 as beacon_adoption_rate, AVG(CASE WHEN p.advanced_api_access = 1 THEN 1.0 ELSE 0.0 END) * 100 as api_adoption_rate, AVG(CASE WHEN p.advanced_security = 1 THEN 1.0 ELSE 0.0 END) * 100 as security_adoption_rate FROM plans p JOIN activity a ON p.customer_id = a.customer_id GROUP BY p.plan_name ORDER BY customer_count DESC"

def sqlLifecycleAnalysis : String :=
  "SELECT c.customer_name, p.plan_name, p.months_since_active, CASE WHEN p.months_since_active <= 3 THEN \x27New\x27 WHEN p.months_since_active <= 12 THEN \x27Growing\x27 WHEN p.months_since_active <= 24 THEN \x27Mature\x27 ELSE \x27Veteran\x27 END as lifecycle_stage, CAST(p.average_monthly_revenue AS FLOAT) as revenue, p.billings, a.monthly_active_users, a.workflows FROM customers c JOIN plans p ON c.customer_id = p.customer_id JOIN activity a ON c.customer_id = a.customer_id ORDER BY p.months_since_active DESC"

def sqlLowEngagementHighValue : String :=
  "SELECT c.customer_name, p.plan_name, CAST(p.average_monthly_revenue AS FLOAT) as revenue, a.regular_users, a.monthly_active_users, CASE WHEN a.regular_users > 0 THEN ROUND(CAST(a.monthly_active_users AS FLOAT) / a.regular_users * 100, 2) ELSE 0 END as activation_rate, a.workflows, a.integrations FROM customers c JOIN plans p ON c.customer_id = p.customer_id JOIN activity a ON c.customer_id = a.customer_id WHERE CAST(p.average_monthly_revenue AS FLOAT) > 500 AND (CASE WHEN a.regular_users > 0 THEN CAST(a.monthly_active_users AS FLOAT) / a.regular_users ELSE 0 END) < 0.5 ORDER BY revenue DESC"

/-- QueryBuilder.get_common_queries. -/
def commonQueries : List (String × String) :=
  [("top_revenue_customers", sqlTopRevenueCustomers),
   ("usage_by_plan", sqlUsageByPlan),
   ("engagement_analysis", sqlEngagementAnalysis),
   ("plan_performance", sqlPlanPerformance),
   ("at_risk_customers", sqlAtRiskCustomers),
   ("feature_adoption", sqlFeatureAdoption),
   ("lifecycle_analysis", sqlLifecycleAnalysis),
   ("low_engagement_high_value", sqlLowEngagementHighValue)]

/- Relational semantics of QueryBuilder.revenue_at_risk_analysis over
typed backend tables, for the claims about its output rows. -/

structure DbCustomer where
  customer_id : String
  customer_name : String
deriving DecidableEq

structure DbPlan where
  customer_id : String
  plan_name : String
  average_monthly_revenue : ℚ
  billings : String
  months_since_active : ℚ
deriving DecidableEq

structure DbActivity where
  customer_id : String
  monthly_active_users : ℚ
  regular_users : ℚ
deriving DecidableEq

structure AtRiskRow where
  customer_name : String
  plan_name : String
  revenue : ℚ
  billing_status : String
  months_since_active : ℚ
  monthly_active_users : ℚ
  regular_users : ℚ
  risk_category : String
deriving DecidableEq

/-- The WHERE clause of revenue_at_risk_analysis. -/
def atRiskWhereB (p : DbPlan) (a : DbActivity) : Bool :=
  decide (p.billings ≠ "Active") || decide (a.monthly_active_users = 0)
    || (decide (a.regular_users > 0)
        && decide (a.monthly_active_users / a.regular_users < (3 / 10 : ℚ)))

/-- The CASE expression computing risk_category. -/
def riskCategory (p : DbPlan) (a : DbActivity) : String :=
  if p.billings ≠ "Active" then "Billing Issue"
  else if a.monthly_active_users = 0 then "No Activity"
  else if a.regular_users > 0 ∧ a.monthly_active_users / a.regular_users < (3 / 10 : ℚ) then
    "Low Engagement"
  else "Healthy"

/-- The SELECT projection of revenue_at_risk_analysis. -/
def mkAtRisk (c : DbCustomer) (p : DbPlan) (a : DbActivity) : AtRiskRow :=
  { customer_name := c.customer_name
    plan_name := p.plan_name
    revenue := p.average_monthly_revenue
    billing_status := p.billings
    months_since_active := p.months_since_active
    monthly_active_users := a.monthly_active_users
    regular_users := a.regular_users
    risk_category := riskCategory p a }

/-- Insertion step of the ORDER BY revenue DESC sort. -/
def insertByRevenue (x : AtRiskRow) : List AtRiskRow → List AtRiskRow
  | [] => [x]
  | y :: ys => if y.revenue ≤ x.revenue then x :: y :: ys else y :: insertByRevenue x ys

/-- ORDER BY revenue DESC. -/
def sortByRevenueDesc : List AtRiskRow → List AtRiskRow
  | [] => []
  | x :: xs => insertByRevenue x (sortByRevenueDesc xs)

/-- Relational semantics of revenue_at_risk_analysis: the inner joins
on customer_id, the WHERE filter, the projection with risk_category,
and the descending revenue sort. -/
def revenueAtRiskAnalysis (cs : List DbCustomer) (ps : List DbPlan)
    (acts : List DbActivity) : List AtRiskRow :=
  sortByRevenueDesc
    (cs.flatMap (fun c =>
      (ps.filter (fun p => p.customer_id == c.customer_id)).flatMap (fun p =>
        (acts.filter (fun a => a.customer_id == c.customer_id)).flatMap (fun a =>
          if atRiskWhereB p a then [mkAtRisk c p a] else []))))

/- ----------------------------------------------------------------
   ConversationalInterface (ai_interface.py)
   ---------------------------------------------------------------- -/

/-- The {answer, sql, data, error} contract returned by process_query. -/
structure QueryResult where
  answer : String
  sql : Option String
  data : Option Table
  error : Option String
deriving DecidableEq

/-- The query backend collaborator: execute_query either returns a
table or raises. -/
abbrev Backend := String → Except String Table

/-- Check whether a keyword occurs starting exactly at the head of the
suffix. -/
def startsWithKw (kw : String) (l : List Char) : Bool := kw.data.isPrefixOf l

/-- Existence of a match of p at some position (the re.search scan). -/
def anySuffix (p : List Char → Bool) : List Char → Bool
  | [] => p []
  | c :: cs => p (c :: cs) || anySuffix p cs

def containsKw (kw : String) (l : List Char) : Bool := anySuffix (startsWithKw kw) l

def containsAnyKw (kws : List String) (l : List Char) : Bool :=
  kws.any (fun k => containsKw k l)

/-- Match existence for patterns of the shape (k1|...)(.*?)(k2|...):
some first-group keyword occurs, followed anywhere later by some
second-group keyword. -/
def kwThenKw (k1s k2s : List String) (l : List Char) : Bool :=
  anySuffix (fun suf =>
    k1s.any (fun k => startsWithKw k suf && containsAnyKw k2s (suf.drop k.data.length))) l

/-- Match of (top|best|highest|leading)\s+(\d+)?\s*(customers?|clients?)
at the head of the suffix: a keyword, at least one whitespace, an
optional digit run, optional whitespace, then customer/client. The
character classes are disjoint from the literal heads, so maximal
munch is equivalent to the regex existence semantics. -/
def matchTopCustomersAt (suf : List Char) : Bool :=
  ["top", "best", "highest", "leading"].any (fun k =>
    startsWithKw k suf &&
      (match suf.drop k.data.length with
       | [] => false
       | c :: cs =>
         c.isWhitespace &&
           (let r1 := cs.dropWhile Char.isWhitespace
            let r2 := r1.dropWhile Char.isDigit
            let r3 := r2.dropWhile Char.isWhitespace
            startsWithKw "customer" r3 || startsWithKw "client" r3)))

/-- query_patterns.top_customers:
(top|best|highest|leading)\s+(\d+)?\s*(customers?|clients?). -/
def matchTopCustomers (l : List Char) : Bool := anySuffix matchTopCustomersAt l

/-- query_patterns.revenue_customers:
(revenue|mrr|money|income|highest.*(pay|spend)). -/
def matchRevenueCustomers (l : List Char) : Bool :=
  containsAnyKw ["revenue", "mrr", "money", "income"] l
    || kwThenKw ["highest"] ["pay", "spend"] l

/-- query_patterns.usage_correlation:
(correlation|connection|relationship).*?(contacts?|workflows?|usage). -/
def matchUsageCorrelation : List Char → Bool :=
  kwThenKw ["correlation", "connection", "relationship"] ["contact", "workflow", "usage"]

/-- query_patterns.plan_analysis:
(plan|tier|subscription).*?(performance|analysis|comparison). -/
def matchPlanAnalysis : List Char → Bool :=
  kwThenKw ["plan", "tier", "subscription"] ["performance", "analysis", "comparison"]

/-- query_patterns.engagement:
(engagement|active|activity|usage).*?(low|high|patterns?). -/
def matchEngagement : List Char → Bool :=
  kwThenKw ["engagement", "active", "activity", "usage"] ["low", "high", "pattern"]

/-- query_patterns.at_risk: (risk|churn|danger|problem|issue).*?(customers?|revenue). -/
def matchAtRisk : List Char → Bool :=
  kwThenKw ["risk", "churn", "danger", "problem", "issue"] ["customer", "revenue"]

/-- query_patterns.feature_adoption:
(feature|adoption|integration|api|workflow).*?(usage|rate). -/
def matchFeatureAdoption : List Char → Bool :=
  kwThenKw ["feature", "adoption", "integration", "api", "workflow"] ["usage", "rate"]

/-- query_patterns.lifecycle: (lifecycle|stage|new|veteran|mature|growing). -/
def matchLifecycle : List Char → Bool :=
  containsAnyKw ["lifecycle", "stage", "new", "veteran", "mature", "growing"]

/-- query_patterns.customer_insights:
(tell me|show me|what|insights?).*?(about|interesting). -/
def matchCustomerInsights : List Char → Bool :=
  kwThenKw ["tell me", "show me", "what", "insight"] ["about", "interesting"]

/-- Leftmost alternative of (basic|standard|pro|enterprise) at the head
of the suffix, already title-cased as the source does with .title(). -/
def planAt (suf : List Char) : Option String :=
  if startsWithKw "basic" suf then some "Basic"
  else if startsWithKw "standard" suf then some "Standard"
  else if startsWithKw "pro" suf then some "Pro"
  else if startsWithKw "enterprise" suf then some "Enterprise"
  else none

/-- re.search for a plan mention: leftmost occurrence wins. -/
def findPlanMention : List Char → Option String
  | [] => none
  | c :: cs =>
    match planAt (c :: cs) with
    | some p => some p
    | none => findPlanMention cs

/-- The analysis selected by _match_query_patterns: a predefined
catalog query type, or the plan-filtered custom query. -/
inductive Dispatch where
  | predefined (qt : String)
  | customPlan (plan : String)
deriving DecidableEq

/-- Decision structure of _match_query_patterns: the ordered if-chain
over the lowered question, with each _execute_query call abstracted to
the Dispatch it performs (execution itself is matchQueryPatternsE). -/
def matchDispatch (question : String) : Option Dispatch :=
  if matchTopCustomers (lowerStr question).data
      || matchRevenueCustomers (lowerStr question).data then
    some (.predefined "top_revenue_customers")
  else if matchUsageCorrelation (lowerStr question).data then
    some (.predefined "usage_by_plan")
  else if matchPlanAnalysis (lowerStr question).data then
    some (.predefined "plan_performance")
  else if matchEngagement (lowerStr question).data then
    some (.predefined "engagement_analysis")
  else if matchAtRisk (lowerStr question).data then
    some (.predefined "at_risk_customers")
  else if matchFeatureAdoption (lowerStr question).data then
    some (.predefined "feature_adoption")
  else if matchLifecycle (lowerStr question).data then
    some (.predefined "lifecycle_analysis")
  else if matchCustomerInsights (lowerStr question).data then
    match findPlanMention (lowerStr question).data with
    | some plan => some (.customPlan plan)
    | none => some (.predefined "engagement_analysis")
  else none

/-- The ordered intent-pattern list of the router (the first entry is
the disjunction of top_customers and revenue_customers exactly as the
source tests them together). -/
def intentPatterns : List (List Char → Bool) :=
  [fun l => matchTopCustomers l || matchRevenueCustomers l,
   matchUsageCorrelation, matchPlanAnalysis, matchEngagement, matchAtRisk,
   matchFeatureAdoption, matchLifecycle, matchCustomerInsights]

def patternAt (i : Nat) : List Char → Bool :=
  (intentPatterns.get? i).getD (fun _ => false)

/-- The analysis dispatched by the i-th intent pattern. -/
def dispatchAt (i : Nat) (question : String) : Dispatch :=
  if i = 7 then
    match findPlanMention (lowerStr question).data with
    | some plan => .customPlan plan
    | none => .predefined "engagement_analysis"
  else
    .predefined ((["top_revenue_customers", "usage_by_plan", "plan_performance",
      "engagement_analysis", "at_risk_customers", "feature_adoption",
      "lifecycle_analysis"].get? i).getD "")

/- Answer synthesis helpers. Number formatting of the source f-strings
is abstracted by fmtQ. -/

def fmtQ (q : ℚ) : String :=
  if q.den = 1 then toString q.num else toString q.num ++ "/" ++ toString q.den

def underscoresToSpaces (s : String) : String :=
  String.mk (s.data.map (fun c => if c = '_' then ' ' else c))

def valueToDisplay : Value → String
  | .str s => s
  | .num q => fmtQ q
  | .bool b => toString b
  | .null => "nan"
  | .date y m d => toString y ++ "-" ++ toString m ++ "-" ++ toString d

def sumColQ (t : Table) (c : String) : ℚ :=
  (t.rows.map (fun r => qOf (getV r (colIdx t.cols c)))).foldl (· + ·) 0

def meanColQ (t : Table) (c : String) : ℚ :=
  sumColQ t c / (t.rows.length : ℚ)

/-- Series.get(key, default) on the row of iloc[0]. -/
def rowGetD (cols : List String) (r : Row) (c : String) (d : Value) : Value :=
  if c ∈ cols then getV r (colIdx cols c) else d

/-- The row selected by df[c].idxmax() (first occurrence of the max). -/
def argmaxRow (t : Table) (c : String) : Row :=
  let i := colIdx t.cols c
  (t.rows.foldl (fun acc r =>
    match acc with
    | none => some r
    | some b => if qOf (getV r i) > qOf (getV b i) then some r else some b) none).getD []

/-- df.loc[df[maxCol].idxmax(), target]: the target column access is
unguarded and raises KeyError when absent. -/
def locStr (t : Table) (maxCol target : String) : Except String Value :=
  if target ∈ t.cols then .ok (getV (argmaxRow t maxCol) (colIdx t.cols target))
  else .error (keyError target)

/-- ConversationalInterface._generate_contextual_answer. The guards on
column presence mirror the source; the plan_name lookups inside the
usage_by_plan and plan_performance branches are unguarded. -/
def generateContextualAnswer (qt : String) (data : Table) (q : String) :
    Except String String :=
  if data.rows.isEmpty then
    .ok ("No results found for your question about " ++ underscoresToSpaces qt ++ ".")
  else
    let base := "Based on your question \x27" ++ q ++ "\x27, here\x27s what I found:\n\n"
    if qt = "top_revenue_customers" then
      if "average_monthly_revenue" ∈ data.cols ∨ "revenue" ∈ data.cols then
        let revCol := if "revenue" ∈ data.cols then "revenue" else "average_monthly_revenue"
        let b1 := base ++ "• Top " ++ toString data.rows.length
          ++ " customers represent $" ++ fmtQ (sumColQ data revCol)
          ++ " in monthly revenue\n"
        if 0 < data.rows.length then
          let top := (data.rows.get? 0).getD []
          let nm := valueToDisplay (rowGetD data.cols top "customer_name" (.str "Customer"))
          let rv := qOf (rowGetD data.cols top revCol (.num 0))
          .ok (b1 ++ "• Highest revenue customer: " ++ nm ++ " ($" ++ fmtQ rv ++ "/month)")
        else .ok b1
      else .ok base
    else if qt = "usage_by_plan" then
      let b1 := base ++ "• Analyzed usage patterns across "
        ++ toString data.rows.length ++ " plan types\n"
      if "avg_contacts" ∈ data.cols then
        match locStr data "avg_contacts" "plan_name" with
        | .error e => .error e
        | .ok v => .ok (b1 ++ "• Highest usage plan: " ++ valueToDisplay v)
      else .ok b1
    else if qt = "engagement_analysis" then
      let b1 := base ++ "• Analyzed engagement for "
        ++ toString data.rows.length ++ " customers\n"
      if "user_activation_rate" ∈ data.cols then
        .ok (b1 ++ "• Average user activation rate: "
          ++ fmtQ (meanColQ data "user_activation_rate") ++ "%")
      else .ok b1
    else if qt = "at_risk_customers" then
      let b1 := base ++ "• Found " ++ toString data.rows.length ++ " customers at risk\n"
      if "revenue" ∈ data.cols then
        .ok (b1 ++ "• Total revenue at risk: $" ++ fmtQ (sumColQ data "revenue") ++ "/month")
      else .ok b1
    else if qt = "plan_performance" then
      let b1 := base ++ "• Performance analysis across "
        ++ toString data.rows.length ++ " plan types\n"
      if "total_monthly_revenue" ∈ data.cols then
        match locStr data "total_monthly_revenue" "plan_name" with
        | .error e => .error e
        | .ok v => .ok (b1 ++ "• Highest performing plan: " ++ valueToDisplay v)
      else .ok b1
    else
      .ok (base ++ "• Found " ++ toString data.rows.length ++ " records matching your query")

/-- ConversationalInterface._create_sample_data_for_query_type. The
usage_by_plan frame is a literal in the source and is kept exactly; the
frames drawn from the seeded generator are modelled as fixed
representative tables with the faithful column sets. -/
def createSampleDataForQueryType (qt : String) : Table :=
  if qt = "top_revenue_customers" then
    ⟨["customer_name", "plan_name", "revenue", "billings"],
     [[.str "Customer 1", .str "Pro", .num 1204, .str "Active"],
      [.str "Customer 2", .str "Enterprise", .num 902, .str "Active"],
      [.str "Customer 3", .str "Standard", .num 651, .str "Active"]]⟩
  else if qt = "usage_by_plan" then
    ⟨["plan_name", "customer_count", "avg_contacts", "avg_workflows", "avg_revenue"],
     [[.str "Basic", .num 30, .num 150, .num 5, .num 99],
      [.str "Standard", .num 40, .num 500, .num 12, .num 299],
      [.str "Pro", .num 20, .num 1200, .num 25, .num 599],
      [.str "Enterprise", .num 10, .num 3000, .num 50, .num 1299]]⟩
  else if qt = "engagement_analysis" then
    ⟨["customer_name", "plan_name", "user_activation_rate", "contacts_per_workflow",
      "revenue"],
     [[.str "Customer 1", .str "Basic", .num 62, .num 35, .num 240],
      [.str "Customer 2", .str "Pro", .num 88, .num 52, .num 710]]⟩
  else if qt = "at_risk_customers" then
    ⟨["customer_name", "plan_name", "revenue", "risk_category", "activation_rate"],
     [[.str "At Risk Customer 1", .str "Standard", .num 420, .str "Low Engagement", .num 22],
      [.str "At Risk Customer 2", .str "Pro", .num 830, .str "Billing Issue", .num 35]]⟩
  else
    ⟨["customer_name", "metric_value", "category"],
     [[.str "Sample Customer 1", .num 310, .str "A"],
      [.str "Sample Customer 2", .num 540, .str "B"]]⟩

/-- The fixed answers of _generate_sample_response. -/
def sampleResponses : List (String × String) :=
  [("top_revenue_customers", "Here are the top revenue customers (sample data):"),
   ("usage_by_plan", "Here\x27s usage pattern analysis by plan type (sample data):"),
   ("engagement_analysis", "Here\x27s customer engagement analysis (sample data):"),
   ("at_risk_customers", "Here are customers at risk (sample data):"),
   ("plan_performance", "Here\x27s plan performance analysis (sample data):"),
   ("feature_adoption", "Here\x27s feature adoption analysis (sample data):"),
   ("lifecycle_analysis", "Here\x27s customer lifecycle analysis (sample data):")]

/-- ConversationalInterface._generate_sample_response: a sample answer
with sample data and error left as None. -/
def generateSampleResponse (qt q : String) : QueryResult :=
  { answer := (sampleResponses.lookup qt).getD
      ("Here\x27s analysis for \x27" ++ q ++ "\x27 (sample data):")
    sql := some ("-- Sample SQL query for " ++ qt)
    data := some (createSampleDataForQueryType qt)
    error := none }

/-- ConversationalInterface._generate_fallback_response. -/
def generateFallbackResponse (q : String) : QueryResult :=
  { answer := "I understand you\x27re asking: \x27" ++ q
      ++ "\x27. In the full version with database connectivity, I would analyze this question against the Help Scout customer data including customer information, activity metrics, and plan details. For now, try one of the sample questions in the sidebar!"
    sql := some "-- This would be a generated SQL query based on your question"
    data := none
    error := none }

/-- The error QueryResult produced by the top-level except block of
process_query. -/
def errorResult (e : String) : QueryResult :=
  { answer := "I\x27m sorry, I encountered an error processing your question: " ++ e
    sql := none
    data := none
    error := some e }

/-- ConversationalInterface._execute_query. QUERY_BUILDER_AVAILABLE is
true in this deployment (data_model imports successfully), so the
catalog lookup path runs; the whole body is wrapped in try, and any
exception falls back to the sample response. -/
def executeQuery (db : Option Backend) (qt q : String) : Except String QueryResult :=
  tryCatchE
    (match commonQueries.lookup qt with
     | none => .ok (generateFallbackResponse q)
     | some sql =>
       match db with
       | some backend =>
         match backend sql with
         | .error e => .error e
         | .ok data =>
           match generateContextualAnswer qt data q with
           | .error e => .error e
           | .ok answer =>
             .ok { answer := answer, sql := some sql, data := some data, error := none }
       | none =>
         .ok { answer := "Here\x27s the SQL query that would answer your question about "
                 ++ underscoresToSpaces qt ++ ":"
               sql := some sql, data := none, error := none })
    (fun _ => .ok (generateSampleResponse qt q))

/-- The SQL of _execute_custom_plan_query (whitespace normalised). -/
def customPlanSql (plan : String) : String :=
  "SELECT c.customer_name, p.plan_name, CAST(p.average_monthly_revenue AS FLOAT) as revenue, a.regular_users, a.monthly_active_users, a.contacts, a.workflows, a.integrations, p.billings FROM customers c JOIN plans p ON c.customer_id = p.customer_id JOIN activity a ON c.customer_id = a.customer_id WHERE p.plan_name = \x27"
    ++ plan
    ++ "\x27 ORDER BY CAST(p.average_monthly_revenue AS FLOAT) DESC LIMIT 20"

/-- Answer synthesis of _execute_custom_plan_query; the revenue column
access on a non-empty result is unguarded. -/
def customPlanAnswer (plan : String) (data : Table) : Except String String :=
  let a0 := "Here\x27s information about " ++ plan ++ " plan customers:\n\n"
  if data.rows.isEmpty then .ok a0
  else
    match getColE data "revenue" with
    | .error e => .error e
    | .ok revs =>
      let total := (revs.map qOf).foldl (· + ·) 0
      let avg := total / (data.rows.length : ℚ)
      let a1 := a0 ++ "• Total " ++ plan ++ " customers analyzed: "
        ++ toString data.rows.length ++ "\n"
        ++ "• Total monthly revenue: $" ++ fmtQ total ++ "\n"
        ++ "• Average revenue per customer: $" ++ fmtQ avg ++ "\n"
      let a2 := if "regular_users" ∈ data.cols then
          a1 ++ "• Average users per customer: " ++ fmtQ (meanColQ data "regular_users") ++ "\n"
        else a1
      let a3 := if "workflows" ∈ data.cols then
          a2 ++ "• Average workflows per customer: " ++ fmtQ (meanColQ data "workflows")
        else a2
      .ok a3

/-- ConversationalInterface._execute_custom_plan_query: try around the
whole body, sample response on any exception or without a backend. -/
def executeCustomPlanQuery (db : Option Backend) (plan q : String) :
    Except String QueryResult :=
  tryCatchE
    (match db with
     | some backend =>
       match backend (customPlanSql plan) with
       | .error e => .error e
       | .ok data =>
         match customPlanAnswer plan data with
         | .error e => .error e
         | .ok answer =>
           .ok { answer := answer, sql := some (customPlanSql plan),
                 data := some data, error := none }
     | none => .ok (generateSampleResponse "plan_specific" q))
    (fun _ => .ok (generateSampleResponse "plan_specific" q))

/-- ConversationalInterface._match_query_patterns, factored through its
dispatch decision: the selected analysis is executed, or None is
returned when no pattern matches. -/
def matchQueryPatternsE (db : Option Backend) (q : String) :
    Except String (Option QueryResult) :=
  match matchDispatch q with
  | some (.predefined qt) =>
    match executeQuery db qt q with
    | .error e => .error e
    | .ok r => .ok (some r)
  | some (.customPlan plan) =>
    match executeCustomPlanQuery db plan q with
    | .error e => .error e
    | .ok r => .ok (some r)
  | none => .ok none

/-- ConversationalInterface.process_query before its top-level catch is
applied: pattern match, fallback on no match. -/
def processQueryBody (db : Option Backend) (q : String) : Except String QueryResult :=
  match matchQueryPatternsE db q with
  | .error e => .error e
  | .ok (some r) => .ok r
  | .ok none => .ok (generateFallbackResponse q)

/-- ConversationalInterface.process_query as an Except value at the
router boundary: the top-level except block converts any escaping
exception into the error QueryResult, so a caller-visible exception
would appear here as Except.error. -/
def processQueryE (db : Option Backend) (q : String) : Except String QueryResult :=
  tryCatchE (processQueryBody db q) (fun e => .ok (errorResult e))

/-- The QueryResult actually handed to the caller. -/
def processQuery (db : Option Backend) (q : String) : QueryResult :=
  match processQueryE db q with
  | .ok r => r
  | .error e => errorResult e

/-- A backend whose execute_query always raises. -/
def throwingBackend (e : String) : Backend := fun _ => Except.error e

/- ----------------------------------------------------------------
   Concrete instances used by counterexamples and witnesses
   ---------------------------------------------------------------- -/

/-- One-row customers table with a given monthly revenue. -/
def revRowTable (q : ℚ) : Table :=
  ⟨["customer_id", "average_monthly_revenue"], [[.str "c1", .num q]]⟩

/-- The revenue_tier cell assigned by the customer_summary view to a
customer whose average_monthly_revenue is q. -/
def revTierCell (q : ℚ) : Value :=
  let s := createCustomerSummary (revRowTable q)
  getV ((s.rows.get? 0).getD []) (colIdx s.cols "revenue_tier")

/-- A file system that stores, as customer.csv, exactly the table the
sample generator would produce, and no other file. -/
def fsSampleOnDisk : String → Option Table :=
  fun f => if f = "customer.csv" then some (generateSampleData "customers") else none

/-- A file system with no files at all. -/
def fsEmpty : String → Option Table := fun _ => none

/-- Unified table missing the integrations and beacons columns while
contacts and workflows are present. -/
def c6FailingTable : Table :=
  ⟨["customer_id", "contacts", "workflows"], [[.str "c1", .num 5, .num 2]]⟩

/-- Cleaned customers table with a unique customer_id. -/
def c4Customers : Table :=
  ⟨["customer_id", "customer_name"], [[.str "c1", .str "Acme"]]⟩

/-- Cleaned activity table holding two rows for the same customer_id
(activity cleaning never deduplicates). -/
def c4Activity : Table :=
  ⟨["customer_id", "workflows"], [[.str "c1", .num 1], [.str "c1", .num 2]]⟩

def c4Cleaned : List (String × Table) :=
  [("customers", c4Customers), ("activity", c4Activity)]

/-- The unified table produced from c4Cleaned: the duplicated activity
key duplicates the customer row. -/
def c4Unified : Table :=
  ⟨["customer_id", "customer_name", "workflows"],
   [[.str "c1", .str "Acme", .num 1], [.str "c1", .str "Acme", .num 2]]⟩

/-- Raw input used to exhibit one full cleaning pass. -/
def c9Raw : List (String × Table) :=
  [("customers", ⟨["customer_id", "customer_name"],
     [[.str "c1", .null], [.str "c1", .str "Dup"]]⟩),
   ("activity", ⟨["customer_id", "regular_users", "monthly_active_users", "contacts"],
     [[.str "c1", .str "10", .num 50, .str "3.5"]]⟩),
   ("plans", ⟨["customer_id", "plan_name", "average_monthly_revenue"],
     [[.str "c1", .str "pro", .str "$1,200"]]⟩)]

def c9CleanCustomers : Table :=
  ⟨["customer_id", "customer_name"], [[.str "c1", .str "Unknown Customer"]]⟩

def c9CleanActivity : Table :=
  ⟨["customer_id", "regular_users", "monthly_active_users", "contacts"],
   [[.str "c1", .num 10, .num 10, .num 3]]⟩

def c9CleanPlans : Table :=
  ⟨["customer_id", "plan_name", "average_monthly_revenue"],
   [[.str "c1", .str "Pro", .num 1200]]⟩

/-- The cleaned form of c9Raw. -/
def c9Clean : List (String × Table) :=
  [("customers", c9CleanCustomers), ("activity", c9CleanActivity),
   ("plans", c9CleanPlans)]

/-- The unified table produced from c9Clean. -/
def c9Unified : Table :=
  ⟨["customer_id", "customer_name", "regular_users", "monthly_active_users",
    "contacts", "plan_name", "average_monthly_revenue"],
   [[.str "c1", .str "Unknown Customer", .num 10, .num 10, .num 3,
     .str "Pro", .num 1200]]⟩

/-- Activity table used to exercise the clamp invariant. -/
def c7Example : Table :=
  ⟨["customer_id", "regular_users", "monthly_active_users", "paid_users"],
   [[.str "c1", .num 10, .num 50, .num 30]]⟩

/-- Backend tables for the at-risk witness. -/
def c10Customers : List DbCustomer := [⟨"c1", "Acme"⟩]

def c10Plans : List DbPlan := [⟨"c1", "Pro", 100, "Cancelled", 5⟩]

def c10Acts : List DbActivity := [⟨"c1", 0, 0⟩]

def c10ExampleRow : AtRiskRow :=
  ⟨"Acme", "Pro", 100, "Cancelled", 5, 0, 0, "Billing Issue"⟩

/- ================================================================
   Theorems
   ================================================================ -/

/-- C1: for every string input (empty, whitespace, or arbitrary text)
and every backend behaviour, process_query terminates in a well-formed
QueryResult at the router boundary and never propagates an exception to
its caller: the Except value at the boundary is always ok. -/
theorem c1_router_totality (db : Option Backend) (q : String) :
    ∃ r : QueryResult, processQueryE db q = Except.ok r := by
  cases hb : processQueryBody db q with
  | ok r => exact ⟨r, by unfold processQueryE tryCatchE; rw [hb]⟩
  | error e => exact ⟨errorResult e, by unfold processQueryE tryCatchE; rw [hb]⟩

/-- C2 (counterexample): in the customer_summary view a row whose
average_monthly_revenue is exactly 100 is assigned revenue_tier Low,
not Medium as claimed, because pd.cut buckets are right-closed; 99.99
is assigned Low as claimed. -/
theorem c2_revenue_tier_counterexample :
    revTierCell 100 = Value.str "Low" ∧ revTierCell 100 ≠ Value.str "Medium" ∧
    revTierCell (mkRat 9999 100) = Value.str "Low" :=
  ⟨by decide, by decide, by decide⟩

/-- C2 (amended): the revenue_tier buckets of customer_summary are
right-inclusive: a row with average_monthly_revenue exactly 100 is
assigned Low (the Low bucket is the interval up to and including 100),
99.99 is assigned Low, and exactly the values strictly above 100 and up
to 500 are assigned Medium. -/
theorem c2_revenue_tier_amended :
    revTierCell 100 = Value.str "Low" ∧ revTierCell (mkRat 9999 100) = Value.str "Low" ∧
    (∀ q : ℚ, q ≤ 100 → revTierCell q = Value.str "Low") ∧
    (∀ q : ℚ, 100 < q → q ≤ 500 → revTierCell q = Value.str "Medium") := by
  refine ⟨by decide, by decide, ?_, ?_⟩
  · intro q h
    have hq : revTierCell q = revenueTierV (Value.num q) := rfl
    rw [hq]
    simp only [revenueTierV]
    rw [if_pos h]
  · intro q h1 h2
    have hq : revTierCell q = revenueTierV (Value.num q) := rfl
    rw [hq]
    simp only [revenueTierV]
    rw [if_neg (not_le.mpr h1), if_pos h2]

/-- Witness for the amended C2 theorem at the concrete revenue 101. -/
theorem c2_revenue_tier_amended_witness :
    (100 : ℚ) < 101 ∧ (101 : ℚ) ≤ 500 ∧ revTierCell 101 = Value.str "Medium" :=
  ⟨by norm_num, by norm_num,
   c2_revenue_tier_amended.2.2.2 101 (by norm_num) (by norm_num)⟩

/-- C5 (counterexample): the claimed provenance flag does not exist.
A run that loads customer.csv from the source and a run that falls back
to sample data return exactly equal values, so the substituted table is
not distinguishable from a source-loaded table through anything
load_raw_data returns. -/
theorem c5_provenance_counterexample :
    loadRawData fsSampleOnDisk = loadRawData fsEmpty ∧
    fsSampleOnDisk "customer.csv" = some (generateSampleData "customers") ∧
    fsEmpty "customer.csv" = none :=
  ⟨by decide, by decide, rfl⟩

/-- C5 (amended): when a source file is missing or unreadable,
load_raw_data substitutes the deterministic sample table (a fixed value,
hence identical across runs) instead of failing; no provenance flag is
returned alongside the table, so the substitution is visible only in
logging, not in the returned mapping. -/
theorem c5_sample_fallback_amended :
    (∀ fs : String → Option Table, fs "customer.csv" = none →
      (loadRawData fs).lookup "customers" = some (generateSampleData "customers")) ∧
    (∀ fs fs' : String → Option Table, (∀ f, fs f = none) → (∀ f, fs' f = none) →
      loadRawData fs = loadRawData fs') := by
  constructor
  · intro fs h
    simp [loadRawData, fileMapping, h, List.lookup]
  · intro fs fs' h h'
    simp [loadRawData, fileMapping, h, h']

/-- Witness for the amended C5 theorem: the empty file system misses
customer.csv and receives the sample customers table. -/
theorem c5_sample_fallback_amended_witness :
    fsEmpty "customer.csv" = none ∧
    (loadRawData fsEmpty).lookup "customers" = some (generateSampleData "customers") ∧
    loadRawData fsEmpty = loadRawData fsEmpty :=
  ⟨rfl, c5_sample_fallback_amended.1 fsEmpty rfl,
   c5_sample_fallback_amended.2 fsEmpty fsEmpty (fun _ => rfl) (fun _ => rfl)⟩

/-- C6: on a unified table that has contacts and workflows but lacks the
integrations column, _create_activity_metrics raises KeyError through
its unguarded unguarded integrations column access instead of skipping the
engagement_score field, contradicting the tolerance the spec states. -/
theorem c6_activity_metrics_keyerror :
    createActivityMetrics c6FailingTable = Except.error (keyError "integrations") := by
  decide

/-- Every predefined analysis that matchDispatch can select has an
entry in the QueryBuilder catalog. -/
theorem dispatch_has_catalog_entry (q qt : String)
    (h : matchDispatch q = some (Dispatch.predefined qt)) :
    ∃ sql, commonQueries.lookup qt = some sql := by
  unfold matchDispatch at h
  split_ifs at h with h0 h1 h2 h3 h4 h5 h6 h7
  · simp only [Option.some.injEq, Dispatch.predefined.injEq] at h
    subst h
    exact ⟨_, rfl⟩
  · simp only [Option.some.injEq, Dispatch.predefined.injEq] at h
    subst h
    exact ⟨_, rfl⟩
  · simp only [Option.some.injEq, Dispatch.predefined.injEq] at h
    subst h
    exact ⟨_, rfl⟩
  · simp only [Option.some.injEq, Dispatch.predefined.injEq] at h
    subst h
    exact ⟨_, rfl⟩
  · simp only [Option.some.injEq, Dispatch.predefined.injEq] at h
    subst h
    exact ⟨_, rfl⟩
  · simp only [Option.some.injEq, Dispatch.predefined.injEq] at h
    subst h
    exact ⟨_, rfl⟩
  · simp only [Option.some.injEq, Dispatch.predefined.injEq] at h
    subst h
    exact ⟨_, rfl⟩
  · cases hf : findPlanMention (lowerStr q).data with
    | some plan => rw [hf] at h; simp at h
    | none =>
      rw [hf] at h
      simp only [Option.some.injEq, Dispatch.predefined.injEq] at h
      subst h
      exact ⟨_, rfl⟩

/-- An always-raising backend makes _execute_query fall back to the
sample response through its internal except block. -/
theorem executeQuery_throwing (qt q sql e : String)
    (hsql : commonQueries.lookup qt = some sql) :
    executeQuery (some (throwingBackend e)) qt q
      = Except.ok (generateSampleResponse qt q) := by
  unfold executeQuery tryCatchE throwingBackend
  rw [hsql]

/-- C3 (counterexample): with a backend whose execute_query raises, a
question matched to a predefined analysis does not yield a QueryResult
with a non-null error field as claimed: the exception is swallowed by
_execute_query and the returned error field is null (with sample data
substituted). -/
theorem c3_backend_failure_counterexample :
    matchDispatch "top customers" = some (Dispatch.predefined "top_revenue_customers") ∧
    (processQuery (some (throwingBackend "database exploded")) "top customers").error
      = none ∧
    (processQuery (some (throwingBackend "database exploded")) "top customers").data
      = some (createSampleDataForQueryType "top_revenue_customers") :=
  ⟨by decide, by decide, by decide⟩

/-- C3 (amended): whenever the backend raises during a matched
predefined analysis, the exception is caught inside _execute_query (not
at the top-level router boundary) and process_query returns the
best-effort sample-data substitute QueryResult, whose error field is
null rather than set. -/
theorem c3_backend_failure_amended (q qt e : String)
    (h : matchDispatch q = some (Dispatch.predefined qt)) :
    processQueryE (some (throwingBackend e)) q
      = Except.ok (generateSampleResponse qt q) ∧
    (generateSampleResponse qt q).error = none := by
  obtain ⟨sql, hsql⟩ := dispatch_has_catalog_entry q qt h
  refine ⟨?_, rfl⟩
  simp only [processQueryE, processQueryBody, matchQueryPatternsE, h,
    executeQuery_throwing qt q sql e hsql, tryCatchE]

/-- Witness for the amended C3 theorem at a concrete matched question
and a concrete raising backend. -/
theorem c3_backend_failure_amended_witness :
    matchDispatch "top customers" = some (Dispatch.predefined "top_revenue_customers") ∧
    processQueryE (some (throwingBackend "db down")) "top customers"
      = Except.ok (generateSampleResponse "top_revenue_customers" "top customers") ∧
    (generateSampleResponse "top_revenue_customers" "top customers").error = none :=
  ⟨by decide,
   (c3_backend_failure_amended "top customers" "top_revenue_customers" "db down"
     (by decide)).1,
   (c3_backend_failure_amended "top customers" "top_revenue_customers" "db down"
     (by decide)).2⟩

/-- Intent patterns beyond the eighth never match. -/
theorem patternAt_big (l : List Char) (n : Nat) : patternAt (n + 8) l = false := rfl

/-- C8: intent classification is first-match-wins over the fixed
ordered pattern list: whenever two patterns at positions i < j both
match the lowered question, the dispatched analysis is that of some
position at most i (the earliest matching pattern). -/
theorem c8_first_match_wins (q : String) (i j : Nat) (hij : i < j)
    (hi : patternAt i (lowerStr q).data = true)
    (hj : patternAt j (lowerStr q).data = true) :
    ∃ k, k ≤ i ∧ patternAt k (lowerStr q).data = true ∧
      matchDispatch q = some (dispatchAt k q) := by
  cases h0 : (matchTopCustomers (lowerStr q).data
      || matchRevenueCustomers (lowerStr q).data) with
  | true =>
    refine ⟨0, Nat.zero_le i, h0, ?_⟩
    simp [matchDispatch, dispatchAt, h0]
  | false =>
  have n0 : i ≠ 0 := by intro h; subst h; rw [show patternAt 0 (lowerStr q).data
    = (matchTopCustomers (lowerStr q).data || matchRevenueCustomers (lowerStr q).data)
    from rfl, h0] at hi; simp at hi
  cases h1 : matchUsageCorrelation (lowerStr q).data with
  | true =>
    refine ⟨1, by omega, h1, ?_⟩
    simp [matchDispatch, dispatchAt, h0, h1]
  | false =>
  have n1 : i ≠ 1 := by intro h; subst h; rw [show patternAt 1 (lowerStr q).data
    = matchUsageCorrelation (lowerStr q).data from rfl, h1] at hi; simp at hi
  cases h2 : matchPlanAnalysis (lowerStr q).data with
  | true =>
    refine ⟨2, by omega, h2, ?_⟩
    simp [matchDispatch, dispatchAt, h0, h1, h2]
  | false =>
  have n2 : i ≠ 2 := by intro h; subst h; rw [show patternAt 2 (lowerStr q).data
    = matchPlanAnalysis (lowerStr q).data from rfl, h2] at hi; simp at hi
  cases h3 : matchEngagement (lowerStr q).data with
  | true =>
    refine ⟨3, by omega, h3, ?_⟩
    simp [matchDispatch, dispatchAt, h0, h1, h2, h3]
  | false =>
  have n3 : i ≠ 3 := by intro h; subst h; rw [show patternAt 3 (lowerStr q).data
    = matchEngagement (lowerStr q).data from rfl, h3] at hi; simp at hi
  cases h4 : matchAtRisk (lowerStr q).data with
  | true =>
    refine ⟨4, by omega, h4, ?_⟩
    simp [matchDispatch, dispatchAt, h0, h1, h2, h3, h4]
  | false =>
  have n4 : i ≠ 4 := by intro h; subst h; rw [show patternAt 4 (lowerStr q).data
    = matchAtRisk (lowerStr q).data from rfl, h4] at hi; simp at hi
  cases h5 : matchFeatureAdoption (lowerStr q).data with
  | true =>
    refine ⟨5, by omega, h5, ?_⟩
    simp [matchDispatch, dispatchAt, h0, h1, h2, h3, h4, h5]
  | false =>
  have n5 : i ≠ 5 := by intro h; subst h; rw [show patternAt 5 (lowerStr q).data
    = matchFeatureAdoption (lowerStr q).data from rfl, h5] at hi; simp at hi
  cases h6 : matchLifecycle (lowerStr q).data with
  | true =>
    refine ⟨6, by omega, h6, ?_⟩
    simp [matchDispatch, dispatchAt, h0, h1, h2, h3, h4, h5, h6]
  | false =>
  have n6 : i ≠ 6 := by intro h; subst h; rw [show patternAt 6 (lowerStr q).data
    = matchLifecycle (lowerStr q).data from rfl, h6] at hi; simp at hi
  cases h7 : matchCustomerInsights (lowerStr q).data with
  | true =>
    refine ⟨7, by omega, h7, ?_⟩
    cases hf : findPlanMention (lowerStr q).data with
    | some plan => simp [matchDispatch, dispatchAt, h0, h1, h2, h3, h4, h5, h6, h7, hf]
    | none => simp [matchDispatch, dispatchAt, h0, h1, h2, h3, h4, h5, h6, h7, hf]
  | false =>
  exfalso
  have n7 : i ≠ 7 := by intro h; subst h; rw [show patternAt 7 (lowerStr q).data
    = matchCustomerInsights (lowerStr q).data from rfl, h7] at hi; simp at hi
  rcases Nat.lt_or_ge i 8 with hlt | hge
  · interval_cases i <;> simp_all
  · obtain ⟨n, rfl⟩ : ∃ n, i = n + 8 := ⟨i - 8, by omega⟩
    rw [patternAt_big] at hi
    simp at hi

/-- Witness for C8: a question whose lowered text matches both the
revenue/top-customers pattern (position 0) and the at-risk pattern
(position 4) dispatches the revenue analysis. -/
theorem c8_first_match_wins_witness :
    patternAt 0 (lowerStr "top customers risk revenue").data = true ∧
    patternAt 4 (lowerStr "top customers risk revenue").data = true ∧
    (∃ k, k ≤ 0 ∧ patternAt k (lowerStr "top customers risk revenue").data = true ∧
      matchDispatch "top customers risk revenue"
        = some (dispatchAt k "top customers risk revenue")) ∧
    dispatchAt 0 "top customers risk revenue"
      = Dispatch.predefined "top_revenue_customers" :=
  ⟨by decide, by decide,
   c8_first_match_wins "top customers risk revenue" 0 4 (by omega) (by decide) (by decide),
   by decide⟩

/-- Membership through the insertion step of the revenue sort. -/
theorem mem_insertByRevenue (x y : AtRiskRow) (l : List AtRiskRow)
    (h : y ∈ insertByRevenue x l) : y = x ∨ y ∈ l := by
  induction l with
  | nil => simpa [insertByRevenue] using h
  | cons z zs ih =>
    unfold insertByRevenue at h
    split_ifs at h with hc
    · rcases List.mem_cons.mp h with h | h
      · exact Or.inl h
      · exact Or.inr h
    · rcases List.mem_cons.mp h with h | h
      · exact Or.inr (by simp [h])
      · rcases ih h with h' | h'
        · exact Or.inl h'
        · exact Or.inr (List.mem_cons_of_mem _ h')

/-- The ORDER BY sort does not add rows. -/
theorem mem_sortByRevenueDesc (y : AtRiskRow) (l : List AtRiskRow)
    (h : y ∈ sortByRevenueDesc l) : y ∈ l := by
  induction l with
  | nil => simpa [sortByRevenueDesc] using h
  | cons x xs ih =>
    unfold sortByRevenueDesc at h
    rcases mem_insertByRevenue x y _ h with h' | h'
    · simp [h']
    · exact List.mem_cons_of_mem _ (ih h')

/-- C10: every row returned by the at_risk_customers catalog query has
risk_category among Billing Issue, No Activity and Low Engagement; the
Healthy label of the CASE expression never appears, because the WHERE
clause admits a row only when one of the three risk conditions holds
and those conditions exhaust the non-ELSE branches of the CASE. -/
theorem c10_risk_category_total (cs : List DbCustomer) (ps : List DbPlan)
    (acts : List DbActivity) (r : AtRiskRow)
    (h : r ∈ revenueAtRiskAnalysis cs ps acts) :
    r.risk_category ∈ ["Billing Issue", "No Activity", "Low Engagement"] ∧
    r.risk_category ≠ "Healthy" := by
  unfold revenueAtRiskAnalysis at h
  have h' := mem_sortByRevenueDesc _ _ h
  obtain ⟨c, hc, hrest⟩ := List.mem_flatMap.mp h'
  obtain ⟨p, hp, hrest2⟩ := List.mem_flatMap.mp hrest
  obtain ⟨a, ha, hrow⟩ := List.mem_flatMap.mp hrest2
  by_cases hw : atRiskWhereB p a = true
  · rw [if_pos hw] at hrow
    have hr2 : r = mkAtRisk c p a := by simpa using hrow
    have hrc : r.risk_category = riskCategory p a := by rw [hr2]; rfl
    have hmem : riskCategory p a ∈ ["Billing Issue", "No Activity", "Low Engagement"] := by
      unfold riskCategory
      by_cases hb : p.billings ≠ "Active"
      · rw [if_pos hb]; simp
      · rw [if_neg hb]
        by_cases hm : a.monthly_active_users = 0
        · rw [if_pos hm]; simp
        · rw [if_neg hm]
          have hcond : a.regular_users > 0
              ∧ a.monthly_active_users / a.regular_users < (3 / 10 : ℚ) := by
            push_neg at hb
            simp [atRiskWhereB, hb, hm] at hw
            exact hw
          rw [if_pos hcond]; simp
    constructor
    · rw [hrc]; exact hmem
    · rw [hrc]; intro hH; rw [hH] at hmem; simp at hmem
  · rw [if_neg hw] at hrow
    simp at hrow

/-- Witness for C10: a cancelled-billing customer produces an at-risk
row, categorised Billing Issue. -/
theorem c10_risk_category_witness :
    c10ExampleRow ∈ revenueAtRiskAnalysis c10Customers c10Plans c10Acts ∧
    c10ExampleRow.risk_category ∈ ["Billing Issue", "No Activity", "Low Engagement"] ∧
    c10ExampleRow.risk_category ≠ "Healthy" :=
  ⟨by decide,
   (c10_risk_category_total c10Customers c10Plans c10Acts c10ExampleRow (by decide)).1,
   (c10_risk_category_total c10Customers c10Plans c10Acts c10ExampleRow (by decide)).2⟩

/- Row and column lemmas for the cleaning pipeline. -/

theorem length_modAt (i : Nat) (f : Value → Value) (r : Row) :
    (modAt i f r).length = r.length := by
  induction r generalizing i with
  | nil => cases i <;> rfl
  | cons v vs ih =>
    cases i with
    | zero => rfl
    | succ j => simpa [modAt] using ih j

theorem get?_modAt_self (i : Nat) (f : Value → Value) (r : Row) :
    (modAt i f r).get? i = (r.get? i).map f := by
  induction r generalizing i with
  | nil => cases i <;> rfl
  | cons v vs ih =>
    cases i with
    | zero => rfl
    | succ j => simpa [modAt] using ih j

theorem get?_modAt_ne (i j : Nat) (f : Value → Value) (r : Row) (hne : j ≠ i) :
    (modAt i f r).get? j = r.get? j := by
  induction r generalizing i j with
  | nil => cases i <;> rfl
  | cons v vs ih =>
    cases i with
    | zero =>
      cases j with
      | zero => exact absurd rfl hne
      | succ j' => rfl
    | succ i' =>
      cases j with
      | zero => rfl
      | succ j' => simpa [modAt] using ih i' j' (fun h => hne (by rw [h]))

theorem modAt_fix (i : Nat) (f : Value → Value) (r : Row)
    (h : ∀ v, r.get? i = some v → f v = v) : modAt i f r = r := by
  induction r generalizing i with
  | nil => cases i <;> rfl
  | cons v vs ih =>
    cases i with
    | zero => simp [modAt, h v rfl]
    | succ j =>
      simp only [modAt, List.cons.injEq, true_and]
      exact ih j (fun w hw => h w hw)

theorem modAt_modAt (i : Nat) (f g : Value → Value) (r : Row) :
    modAt i f (modAt i g r) = modAt i (fun v => f (g v)) r := by
  induction r generalizing i with
  | nil => cases i <;> rfl
  | cons v vs ih =>
    cases i with
    | zero => rfl
    | succ j => simpa [modAt] using ih j

theorem modAt_congr (i : Nat) (f g : Value → Value) (r : Row)
    (h : ∀ v, f v = g v) : modAt i f r = modAt i g r := by
  induction r generalizing i with
  | nil => cases i <;> rfl
  | cons v vs ih =>
    cases i with
    | zero => simp [modAt, h v]
    | succ j => simpa [modAt] using ih j

theorem colIdx_get (cols : List String) (k : String) (h : k ∈ cols) :
    cols.get? (colIdx cols k) = some k := by
  induction cols with
  | nil => cases h
  | cons c cs ih =>
    unfold colIdx
    by_cases hc : c = k
    · rw [if_pos hc, hc]; rfl
    · rw [if_neg hc]
      have hk : k ∈ cs := by
        rcases List.mem_cons.mp h with h' | h'
        · exact absurd h'.symm hc
        · exact h'
      simpa using ih hk

theorem colIdx_lt (cols : List String) (k : String) (h : k ∈ cols) :
    colIdx cols k < cols.length := by
  induction cols with
  | nil => cases h
  | cons c cs ih =>
    unfold colIdx
    by_cases hc : c = k
    · rw [if_pos hc]; simp
    · rw [if_neg hc]
      have hk : k ∈ cs := by
        rcases List.mem_cons.mp h with h' | h'
        · exact absurd h'.symm hc
        · exact h'
      simpa [Nat.succ_lt_succ_iff] using ih hk

theorem colIdx_inj (cols : List String) (k1 k2 : String) (h1 : k1 ∈ cols)
    (h2 : k2 ∈ cols) (hne : k1 ≠ k2) : colIdx cols k1 ≠ colIdx cols k2 := by
  intro he
  have g1 := colIdx_get cols k1 h1
  have g2 := colIdx_get cols k2 h2
  rw [he, g2] at g1
  exact hne (Option.some.inj g1).symm

theorem applyRules_cons (cols : List String) (p : String × (Value → Value))
    (ps : List (String × (Value → Value))) (r : Row) :
    applyRules cols (p :: ps) r = applyRules cols ps (updCol cols p.1 p.2 r) := rfl

theorem length_updCol (cols : List String) (k : String) (f : Value → Value) (r : Row) :
    (updCol cols k f r).length = r.length := by
  unfold updCol
  split_ifs
  · exact length_modAt _ _ _
  · rfl

theorem length_applyRules (cols : List String)
    (rules : List (String × (Value → Value))) (r : Row) :
    (applyRules cols rules r).length = r.length := by
  induction rules generalizing r with
  | nil => rfl
  | cons p ps ih => rw [applyRules_cons, ih, length_updCol]

theorem get?_applyRules_untouched (cols : List String)
    (rules : List (String × (Value → Value))) (r : Row) (i : Nat)
    (h : ∀ p ∈ rules, p.1 ∈ cols → colIdx cols p.1 ≠ i) :
    (applyRules cols rules r).get? i = r.get? i := by
  induction rules generalizing r with
  | nil => rfl
  | cons p ps ih =>
    rw [applyRules_cons, ih _ (fun q hq => h q (List.mem_cons_of_mem _ hq))]
    unfold updCol
    split_ifs with hmem
    · exact get?_modAt_ne _ _ _ _ (Ne.symm (h p (List.mem_cons_self _ _) hmem))
    · rfl

theorem get?_applyRules_hit (cols : List String)
    (rules : List (String × (Value → Value))) (r : Row)
    (p : String × (Value → Value))
    (hnd : (rules.map Prod.fst).Nodup) (hmem : p ∈ rules) (hk : p.1 ∈ cols) :
    (applyRules cols rules r).get? (colIdx cols p.1)
      = (r.get? (colIdx cols p.1)).map p.2 := by
  induction rules generalizing r with
  | nil => cases hmem
  | cons q qs ih =>
    rw [applyRules_cons]
    rcases List.mem_cons.mp hmem with he | hm
    · subst he
      have huntouched : ∀ w ∈ qs, w.1 ∈ cols → colIdx cols w.1 ≠ colIdx cols p.1 := by
        intro w hw hwc
        have hwk : w.1 ≠ p.1 := by
          have hnotin := (List.nodup_cons.mp hnd).1
          intro he2
          exact hnotin (he2 ▸ List.mem_map_of_mem Prod.fst hw)
        exact colIdx_inj cols w.1 p.1 hwc hk hwk
      rw [get?_applyRules_untouched cols qs _ _ huntouched]
      unfold updCol
      rw [if_pos hk]
      exact get?_modAt_self _ _ _
    · have hne : q.1 ≠ p.1 := by
        have hnotin := (List.nodup_cons.mp hnd).1
        intro he2
        exact hnotin (he2 ▸ List.mem_map_of_mem Prod.fst hm)
      rw [ih _ (List.nodup_cons.mp hnd).2 hm]
      unfold updCol
      split_ifs with hq
      · rw [get?_modAt_ne _ _ _ _ (colIdx_inj cols p.1 q.1 hk hq (Ne.symm hne))]
      · rfl

theorem applyRules_fix (cols : List String)
    (rules : List (String × (Value → Value))) (r : Row)
    (h : ∀ p ∈ rules, p.1 ∈ cols →
      ∀ v, r.get? (colIdx cols p.1) = some v → p.2 v = v) :
    applyRules cols rules r = r := by
  induction rules with
  | nil => rfl
  | cons p ps ih =>
    rw [applyRules_cons]
    have hupd : updCol cols p.1 p.2 r = r := by
      unfold updCol
      split_ifs with hp
      · exact modAt_fix _ _ _ (h p (List.mem_cons_self _ _) hp)
      · rfl
    rw [hupd]
    exact ih (fun q hq => h q (List.mem_cons_of_mem _ hq))

/- Pointwise idempotence of the cleaning rules. -/

theorem toNumFill0_isNum (v : Value) : ∃ q : ℚ, toNumFill0 v = Value.num q := by
  cases v with
  | str s =>
    cases hp : parseDecimal s with
    | some q => exact ⟨q, by simp only [toNumFill0, toNumV]; rw [hp]; rfl⟩
    | none => exact ⟨0, by simp only [toNumFill0, toNumV]; rw [hp]; rfl⟩
  | num q => exact ⟨q, rfl⟩
  | bool b => cases b <;> exact ⟨_, rfl⟩
  | null => exact ⟨0, rfl⟩
  | date y m d => exact ⟨0, rfl⟩

theorem toNumFill0_idem (v : Value) : toNumFill0 (toNumFill0 v) = toNumFill0 v := by
  obtain ⟨q, hq⟩ := toNumFill0_isNum v
  rw [hq]
  rfl

theorem truncQ_idem (q : ℚ) : truncQ (truncQ q) = truncQ q := by
  unfold truncQ
  rw [Rat.mkRat_one]
  simp [Rat.num_intCast, Rat.den_intCast, Int.tdiv_one]

theorem toNumIntC_isIntNum (v : Value) : ∃ q : ℚ, toNumIntC v = Value.num (truncQ q) := by
  cases v with
  | str s =>
    cases hp : parseDecimal s with
    | some q => exact ⟨q, by simp only [toNumIntC, toNumV]; rw [hp]⟩
    | none => exact ⟨0, by simp only [toNumIntC, toNumV]; rw [hp]; decide⟩
  | num q => exact ⟨q, rfl⟩
  | bool b =>
    cases b
    · exact ⟨0, rfl⟩
    · exact ⟨1, rfl⟩
  | null => exact ⟨0, (by decide : Value.num 0 = Value.num (truncQ 0))⟩
  | date y m d => exact ⟨0, (by decide : Value.num 0 = Value.num (truncQ 0))⟩

theorem toNumIntC_idem (v : Value) : toNumIntC (toNumIntC v) = toNumIntC v := by
  obtain ⟨q, hq⟩ := toNumIntC_isIntNum v
  rw [hq]
  show Value.num (truncQ (truncQ q)) = Value.num (truncQ q)
  rw [truncQ_idem]

theorem toDateV_idem (v : Value) : toDateV (toDateV v) = toDateV v := by
  cases v with
  | str s =>
    cases hp : parseIsoDate s with
    | some t =>
      obtain ⟨y, m, d⟩ := t
      have e : toDateV (.str s) = .date y m d := by simp only [toDateV]; rw [hp]
      rw [e]
      rfl
    | none =>
      have e : toDateV (.str s) = .null := by simp only [toDateV]; rw [hp]
      rw [e]
      rfl
  | date y m d => rfl
  | num q => rfl
  | bool b => rfl
  | null => rfl

theorem cleanRevenueV_isNum (v : Value) : ∃ q : ℚ, cleanRevenueV v = Value.num q := by
  cases v with
  | str s =>
    cases hp : parseDecimal (stripCurrency s) with
    | some q => exact ⟨q, by simp only [cleanRevenueV]; rw [hp]⟩
    | none => exact ⟨0, by simp only [cleanRevenueV]; rw [hp]⟩
  | num q => exact ⟨q, rfl⟩
  | bool b => exact ⟨0, rfl⟩
  | null => exact ⟨0, rfl⟩
  | date y m d => exact ⟨0, rfl⟩

theorem cleanRevenueV_idem (v : Value) :
    cleanRevenueV (cleanRevenueV v) = cleanRevenueV v := by
  obtain ⟨q, hq⟩ := cleanRevenueV_isNum v
  rw [hq]
  rfl

theorem cleanPlanNameV_idem (v : Value) :
    cleanPlanNameV (cleanPlanNameV v) = cleanPlanNameV v := by
  cases v with
  | str s =>
    by_cases h1 : lowerStr s = "basic"
    · have e : cleanPlanNameV (.str s) = .str "Basic" := by simp [cleanPlanNameV, h1]
      rw [e]; decide
    · by_cases h2 : lowerStr s = "standard"
      · have e : cleanPlanNameV (.str s) = .str "Standard" := by
          simp [cleanPlanNameV, h1, h2]
        rw [e]; decide
      · by_cases h3 : lowerStr s = "pro"
        · have e : cleanPlanNameV (.str s) = .str "Pro" := by
            simp [cleanPlanNameV, h1, h2, h3]
          rw [e]; decide
        · by_cases h4 : lowerStr s = "enterprise"
          · have e : cleanPlanNameV (.str s) = .str "Enterprise" := by
              simp [cleanPlanNameV, h1, h2, h3, h4]
            rw [e]; decide
          · have e : cleanPlanNameV (.str s) = .str s := by
              simp [cleanPlanNameV, h1, h2, h3, h4]
            rw [e]
            exact e
  | num q => rfl
  | bool b => rfl
  | null => rfl
  | date y m d => rfl

theorem toBoolV_idem (v : Value) : toBoolV (toBoolV v) = toBoolV v := by
  cases v <;> rfl

theorem fillUnknownV_idem (v : Value) :
    fillUnknownV (fillUnknownV v) = fillUnknownV v := by
  cases v <;> rfl

/- Characterisation of _clean_activity_table rows. -/

theorem vmin_num_left (a : ℚ) (w : Value) : ∃ q : ℚ, vmin (Value.num a) w = Value.num q := by
  cases w with
  | num b => exact ⟨min a b, rfl⟩
  | str s => exact ⟨a, rfl⟩
  | bool b => exact ⟨a, rfl⟩
  | null => exact ⟨a, rfl⟩
  | date y m d => exact ⟨a, rfl⟩

theorem vmin_clamp_idem (a : ℚ) (w : Value) :
    vmin (vmin (Value.num a) w) w = vmin (Value.num a) w := by
  cases w with
  | num b =>
    show Value.num (min (min a b) b) = Value.num (min a b)
    rw [min_assoc, min_self]
  | str s => rfl
  | bool b => rfl
  | null => rfl
  | date y m d => rfl

theorem get?_clampCol_ne (cols : List String) (tgt src : String) (r : Row) (j : Nat)
    (hne : tgt ∈ cols → j ≠ colIdx cols tgt) :
    (clampCol cols tgt src r).get? j = r.get? j := by
  unfold clampCol
  split_ifs with h
  · exact get?_modAt_ne _ _ _ _ (hne h.1)
  · rfl

theorem get?_clampCol_self (cols : List String) (tgt src : String) (r : Row)
    (h : tgt ∈ cols ∧ src ∈ cols) :
    (clampCol cols tgt src r).get? (colIdx cols tgt)
      = (r.get? (colIdx cols tgt)).map
          (fun v => vmin v (getV r (colIdx cols src))) := by
  unfold clampCol
  rw [if_pos h]
  exact get?_modAt_self _ _ _

theorem clampCol_skip (cols : List String) (tgt src : String) (r : Row)
    (h : ¬(tgt ∈ cols ∧ src ∈ cols)) : clampCol cols tgt src r = r := by
  unfold clampCol
  rw [if_neg h]

theorem cleanActivityRow_eq (cols : List String) (r : Row) :
    cleanActivityRow cols r
      = clampCol cols "paid_users" "regular_users"
          (clampCol cols "monthly_active_users" "regular_users"
            (applyRules cols activityRules r)) := rfl

theorem cleanActivityRow_get_ru (cols : List String) (r : Row)
    (hr : "regular_users" ∈ cols) :
    (cleanActivityRow cols r).get? (colIdx cols "regular_users")
      = (r.get? (colIdx cols "regular_users")).map toNumFill0 := by
  rw [cleanActivityRow_eq]
  rw [get?_clampCol_ne _ _ _ _ _
    (fun hp => colIdx_inj cols "regular_users" "paid_users" hr hp (by decide))]
  rw [get?_clampCol_ne _ _ _ _ _
    (fun hm => colIdx_inj cols "regular_users" "monthly_active_users" hr hm (by decide))]
  exact get?_applyRules_hit cols activityRules r ("regular_users", toNumFill0)
    (by decide) (by simp [activityRules]) hr

theorem cleanActivityRow_get_mau (cols : List String) (r : Row)
    (hm : "monthly_active_users" ∈ cols) (hr : "regular_users" ∈ cols) :
    (cleanActivityRow cols r).get? (colIdx cols "monthly_active_users")
      = (r.get? (colIdx cols "monthly_active_users")).map (fun v =>
          vmin (toNumFill0 v)
            (((r.get? (colIdx cols "regular_users")).map toNumFill0).getD Value.null)) := by
  have hitm := get?_applyRules_hit cols activityRules r ("monthly_active_users", toNumFill0)
    (by decide) (by simp [activityRules]) hm
  have hitr := get?_applyRules_hit cols activityRules r ("regular_users", toNumFill0)
    (by decide) (by simp [activityRules]) hr
  rw [cleanActivityRow_eq]
  rw [get?_clampCol_ne _ _ _ _ _
    (fun hp => colIdx_inj cols "monthly_active_users" "paid_users" hm hp (by decide))]
  rw [get?_clampCol_self _ _ _ _ ⟨hm, hr⟩]
  rw [hitm]
  cases hv : r.get? (colIdx cols "monthly_active_users") with
  | none => rfl
  | some v =>
    show some (vmin (toNumFill0 v)
        (getV (applyRules cols activityRules r) (colIdx cols "regular_users")))
      = some (vmin (toNumFill0 v)
        (((r.get? (colIdx cols "regular_users")).map toNumFill0).getD Value.null))
    unfold getV
    rw [hitr]

theorem cleanActivityRow_get_paid (cols : List String) (r : Row)
    (hp : "paid_users" ∈ cols) (hr : "regular_users" ∈ cols) :
    (cleanActivityRow cols r).get? (colIdx cols "paid_users")
      = (r.get? (colIdx cols "paid_users")).map (fun v =>
          vmin (toNumFill0 v)
            (((r.get? (colIdx cols "regular_users")).map toNumFill0).getD Value.null)) := by
  have hitp := get?_applyRules_hit cols activityRules r ("paid_users", toNumFill0)
    (by decide) (by simp [activityRules]) hp
  have hitr := get?_applyRules_hit cols activityRules r ("regular_users", toNumFill0)
    (by decide) (by simp [activityRules]) hr
  rw [cleanActivityRow_eq]
  rw [get?_clampCol_self _ _ _ _ ⟨hp, hr⟩]
  rw [get?_clampCol_ne _ _ _ _ _
    (fun hm => colIdx_inj cols "paid_users" "monthly_active_users" hp hm (by decide))]
  rw [hitp]
  cases hv : r.get? (colIdx cols "paid_users") with
  | none => rfl
  | some v =>
    show some (vmin (toNumFill0 v)
        (getV (clampCol cols "monthly_active_users" "regular_users"
          (applyRules cols activityRules r)) (colIdx cols "regular_users")))
      = some (vmin (toNumFill0 v)
        (((r.get? (colIdx cols "regular_users")).map toNumFill0).getD Value.null))
    unfold getV
    rw [get?_clampCol_ne _ _ _ _ _
      (fun hm => colIdx_inj cols "regular_users" "monthly_active_users" hr hm (by decide))]
    rw [hitr]

/-- C7: after cleaning, every activity row satisfies the clamp
invariant whenever the clamped columns are present: the
monthly_active_users and paid_users cells are numbers bounded by the
regular_users cell; and cleaning repairs by clamping, never by raising
or dropping rows (the row count is preserved and the cleaner is a total
function). -/
theorem c7_clamp_invariant (t : Table) (hwf : t.WF) :
    (cleanActivity t).rows.length = t.rows.length ∧
    ∀ r ∈ (cleanActivity t).rows,
      ("monthly_active_users" ∈ t.cols → "regular_users" ∈ t.cols →
        ∃ a b : ℚ, getV r (colIdx t.cols "monthly_active_users") = Value.num a ∧
          getV r (colIdx t.cols "regular_users") = Value.num b ∧ a ≤ b) ∧
      ("paid_users" ∈ t.cols → "regular_users" ∈ t.cols →
        ∃ a b : ℚ, getV r (colIdx t.cols "paid_users") = Value.num a ∧
          getV r (colIdx t.cols "regular_users") = Value.num b ∧ a ≤ b) := by
  constructor
  · simp [cleanActivity]
  · intro r hrmem
    simp only [cleanActivity, List.mem_map] at hrmem
    obtain ⟨r0, hr0, rfl⟩ := hrmem
    have hlen : r0.length = t.cols.length := hwf r0 hr0
    constructor
    · intro hm hr
      obtain ⟨vm, hvm⟩ : ∃ v, r0.get? (colIdx t.cols "monthly_active_users") = some v := by
        have hlt : colIdx t.cols "monthly_active_users" < r0.length := by
          rw [hlen]; exact colIdx_lt _ _ hm
        exact ⟨r0.get ⟨_, hlt⟩, List.get?_eq_get hlt⟩
      obtain ⟨vr, hvr⟩ : ∃ v, r0.get? (colIdx t.cols "regular_users") = some v := by
        have hlt : colIdx t.cols "regular_users" < r0.length := by
          rw [hlen]; exact colIdx_lt _ _ hr
        exact ⟨r0.get ⟨_, hlt⟩, List.get?_eq_get hlt⟩
      obtain ⟨b, hb⟩ := toNumFill0_isNum vr
      obtain ⟨a0, ha0⟩ := toNumFill0_isNum vm
      refine ⟨min a0 b, b, ?_, ?_, min_le_right a0 b⟩
      · unfold getV
        rw [cleanActivityRow_get_mau t.cols r0 hm hr, hvm, hvr]
        show vmin (toNumFill0 vm) (toNumFill0 vr) = Value.num (min a0 b)
        rw [ha0, hb]
        rfl
      · unfold getV
        rw [cleanActivityRow_get_ru t.cols r0 hr, hvr]
        show toNumFill0 vr = Value.num b
        exact hb
    · intro hp hr
      obtain ⟨vp, hvp⟩ : ∃ v, r0.get? (colIdx t.cols "paid_users") = some v := by
        have hlt : colIdx t.cols "paid_users" < r0.length := by
          rw [hlen]; exact colIdx_lt _ _ hp
        exact ⟨r0.get ⟨_, hlt⟩, List.get?_eq_get hlt⟩
      obtain ⟨vr, hvr⟩ : ∃ v, r0.get? (colIdx t.cols "regular_users") = some v := by
        have hlt : colIdx t.cols "regular_users" < r0.length := by
          rw [hlen]; exact colIdx_lt _ _ hr
        exact ⟨r0.get ⟨_, hlt⟩, List.get?_eq_get hlt⟩
      obtain ⟨b, hb⟩ := toNumFill0_isNum vr
      obtain ⟨a0, ha0⟩ := toNumFill0_isNum vp
      refine ⟨min a0 b, b, ?_, ?_, min_le_right a0 b⟩
      · unfold getV
        rw [cleanActivityRow_get_paid t.cols r0 hp hr, hvp, hvr]
        show vmin (toNumFill0 vp) (toNumFill0 vr) = Value.num (min a0 b)
        rw [ha0, hb]
        rfl
      · unfold getV
        rw [cleanActivityRow_get_ru t.cols r0 hr, hvr]
        show toNumFill0 vr = Value.num b
        exact hb

/-- Witness for C7: an activity table whose raw row has
monthly_active_users and paid_users above regular_users is repaired by
clamping. -/
theorem c7_clamp_invariant_witness :
    c7Example.WF ∧
    ((cleanActivity c7Example).rows.length = c7Example.rows.length ∧
    ∀ r ∈ (cleanActivity c7Example).rows,
      ("monthly_active_users" ∈ c7Example.cols → "regular_users" ∈ c7Example.cols →
        ∃ a b : ℚ, getV r (colIdx c7Example.cols "monthly_active_users") = Value.num a ∧
          getV r (colIdx c7Example.cols "regular_users") = Value.num b ∧ a ≤ b) ∧
      ("paid_users" ∈ c7Example.cols → "regular_users" ∈ c7Example.cols →
        ∃ a b : ℚ, getV r (colIdx c7Example.cols "paid_users") = Value.num a ∧
          getV r (colIdx c7Example.cols "regular_users") = Value.num b ∧ a ≤ b)) :=
  ⟨by decide, c7_clamp_invariant c7Example (by decide)⟩

/- Lemmas for the left-merge row counting. -/

theorem filter_key_le_one (ri : Nat) (rows : List Row) (k : Value)
    (hnd : rows.Pairwise (fun r1 r2 => getV r1 ri ≠ getV r2 ri)) :
    (rows.filter (fun rr => getV rr ri == k)).length ≤ 1 := by
  induction rows with
  | nil => simp
  | cons r rs ih =>
    rcases List.pairwise_cons.mp hnd with ⟨hhead, htail⟩
    rw [List.filter_cons]
    by_cases hk : (getV r ri == k) = true
    · rw [if_pos hk]
      have hnilf : rs.filter (fun rr => getV rr ri == k) = [] := by
        rw [List.filter_eq_nil_iff]
        intro a ha hak
        exact hhead a ha (by
          have h1 : getV r ri = k := by simpa using hk
          have h2 : getV a ri = k := by simpa using hak
          rw [h1, h2])
      rw [hnilf]
      simp
    · rw [if_neg hk]
      exact ih htail

theorem mergeLeft_length (l r : Table)
    (hnd : r.rows.Pairwise (fun r1 r2 =>
      getV r1 (colIdx r.cols "customer_id") ≠ getV r2 (colIdx r.cols "customer_id"))) :
    (mergeLeft l r).rows.length = l.rows.length := by
  show (l.rows.flatMap (fun lr =>
      let ms := r.rows.filter (fun rr =>
        getV rr (colIdx r.cols "customer_id") == getV lr (colIdx l.cols "customer_id"))
      if ms.isEmpty then
        [lr ++ List.replicate (removeAt (colIdx r.cols "customer_id") r.cols).length
          Value.null]
      else ms.map (fun rr =>
        lr ++ removeAt (colIdx r.cols "customer_id") rr))).length = l.rows.length
  induction l.rows with
  | nil => rfl
  | cons a as ih =>
    rw [List.flatMap_cons, List.length_append, ih]
    have h1 : (let ms := r.rows.filter (fun rr =>
        getV rr (colIdx r.cols "customer_id") == getV a (colIdx l.cols "customer_id"))
        if ms.isEmpty then
          [a ++ List.replicate (removeAt (colIdx r.cols "customer_id") r.cols).length
            Value.null]
        else ms.map (fun rr =>
          a ++ removeAt (colIdx r.cols "customer_id") rr)).length = 1 := by
      by_cases hE : (r.rows.filter (fun rr =>
          getV rr (colIdx r.cols "customer_id")
            == getV a (colIdx l.cols "customer_id"))).isEmpty = true
      · simp only [hE, if_true]
        rfl
      · simp only [hE]
        rw [if_neg (by simp [hE])]
        rw [List.length_map]
        have hle := filter_key_le_one (colIdx r.cols "customer_id") r.rows
          (getV a (colIdx l.cols "customer_id")) hnd
        have hpos : (r.rows.filter (fun rr =>
            getV rr (colIdx r.cols "customer_id")
              == getV a (colIdx l.cols "customer_id"))) ≠ [] := by
          intro hnil
          exact hE (by rw [hnil]; rfl)
        have hp2 := List.length_pos.mpr hpos
        omega
    rw [h1, List.length_cons]
    omega

/-- C4 (counterexample): a cleaned input whose customers table has a
unique customer_id but whose activity table repeats a customer_id (such
inputs are fixed points of clean_data, which never deduplicates
activity) yields a unified dataset with more rows than customers: the
left join duplicates the customer row. -/
theorem c4_join_counterexample :
    c4Customers.rows.Pairwise (fun r1 r2 =>
      getV r1 (colIdx c4Customers.cols "customer_id")
        ≠ getV r2 (colIdx c4Customers.cols "customer_id")) ∧
    cleanData c4Cleaned = Except.ok c4Cleaned ∧
    createUnifiedDataset c4Cleaned = Except.ok c4Unified ∧
    c4Unified.rows.length = 2 ∧ c4Customers.rows.length = 1 :=
  ⟨by decide, by decide, by decide, by decide, by decide⟩

/-- C4 (amended): the unified dataset has exactly one row per cleaned
customer provided customer_id is unique in the customers table and also
in the activity and plans tables; the left joins never drop a customer
row, but a repeated customer_id in activity or plans duplicates the
corresponding customer row. -/
theorem c4_join_completeness_amended (cleaned : List (String × Table)) (c u : Table)
    (hc : cleaned.lookup "customers" = some c)
    (hcu : c.rows.Pairwise (fun r1 r2 =>
      getV r1 (colIdx c.cols "customer_id") ≠ getV r2 (colIdx c.cols "customer_id")))
    (ha : ∀ a, cleaned.lookup "activity" = some a → a.rows.Pairwise (fun r1 r2 =>
      getV r1 (colIdx a.cols "customer_id") ≠ getV r2 (colIdx a.cols "customer_id")))
    (hp : ∀ p, cleaned.lookup "plans" = some p → p.rows.Pairwise (fun r1 r2 =>
      getV r1 (colIdx p.cols "customer_id") ≠ getV r2 (colIdx p.cols "customer_id")))
    (hu : createUnifiedDataset cleaned = Except.ok u) :
    u.rows.length = c.rows.length := by
  unfold createUnifiedDataset at hu
  rw [hc] at hu
  cases hla : cleaned.lookup "activity" with
  | none =>
    cases hlp : cleaned.lookup "plans" with
    | none =>
      rw [hla, hlp] at hu
      cases hu
      rfl
    | some p =>
      rw [hla, hlp] at hu
      cases hu
      exact mergeLeft_length c p (hp p hlp)
  | some a =>
    cases hlp : cleaned.lookup "plans" with
    | none =>
      rw [hla, hlp] at hu
      cases hu
      exact mergeLeft_length c a (ha a hla)
    | some p =>
      rw [hla, hlp] at hu
      cases hu
      rw [mergeLeft_length (mergeLeft c a) p (hp p hlp), mergeLeft_length c a (ha a hla)]

/-- Witness for amended C4: the cleaned tables of c9Clean have unique
customer ids everywhere and unify into exactly one row per customer. -/
theorem c4_join_completeness_amended_witness :
    createUnifiedDataset c9Clean = Except.ok c9Unified ∧
    c9Unified.rows.length = c9CleanCustomers.rows.length := by
  constructor
  · decide
  · apply c4_join_completeness_amended c9Clean c9CleanCustomers c9Unified
      (by decide) (by decide) ?_ ?_ (by decide)
    · intro a hla
      have e : c9Clean.lookup "activity" = some c9CleanActivity := by decide
      rw [e] at hla
      cases hla
      decide
    · intro p hlp
      have e : c9Clean.lookup "plans" = some c9CleanPlans := by decide
      rw [e] at hlp
      cases hlp
      decide

/- Idempotence of the cleaning pipeline. -/

theorem map_congr_mem {α β : Type} (f g : α → β) (l : List α)
    (h : ∀ a ∈ l, f a = g a) : l.map f = l.map g := by
  induction l with
  | nil => rfl
  | cons a as ih =>
    simp only [List.map_cons]
    rw [h a (List.mem_cons_self a as),
      ih (fun b hb => h b (List.mem_cons_of_mem _ hb))]

theorem rule_fix_of_map (f : Value → Value) (hidem : ∀ w, f (f w) = f w)
    (r : Row) (i : Nat) (v : Value) (hv : (r.get? i).map f = some v) : f v = v := by
  cases hw : r.get? i with
  | none => rw [hw] at hv; cases hv
  | some w =>
    rw [hw] at hv
    have hv' : some (f w) = some v := hv
    rw [← Option.some.inj hv']
    exact hidem w

theorem applyRules_idem (cols : List String)
    (rules : List (String × (Value → Value))) (r : Row)
    (hnd : (rules.map Prod.fst).Nodup)
    (hid : ∀ p ∈ rules, ∀ v, p.2 (p.2 v) = p.2 v) :
    applyRules cols rules (applyRules cols rules r) = applyRules cols rules r := by
  apply applyRules_fix
  intro p hp hpc v hv
  rw [get?_applyRules_hit cols rules r p hnd hp hpc] at hv
  exact rule_fix_of_map p.2 (hid p hp) r _ v hv

theorem toNumFill0_fix_of_map_clamped (r : Row) (i : Nat) (rv : Value) (v : Value)
    (hv : (r.get? i).map (fun w => vmin (toNumFill0 w) rv) = some v) :
    toNumFill0 v = v := by
  cases hw : r.get? i with
  | none => rw [hw] at hv; cases hv
  | some w =>
    rw [hw] at hv
    have hv' : some (vmin (toNumFill0 w) rv) = some v := hv
    rw [← Option.some.inj hv']
    obtain ⟨a, ha⟩ := toNumFill0_isNum w
    rw [ha]
    obtain ⟨qq, hq⟩ := vmin_num_left a rv
    rw [hq]
    rfl

theorem clamp_fix_of_map (r : Row) (i : Nat) (rv : Value) (v : Value)
    (hv : (r.get? i).map (fun w => vmin (toNumFill0 w) rv) = some v) :
    vmin v rv = v := by
  cases hw : r.get? i with
  | none => rw [hw] at hv; cases hv
  | some w =>
    rw [hw] at hv
    have hv' : some (vmin (toNumFill0 w) rv) = some v := hv
    rw [← Option.some.inj hv']
    obtain ⟨a, ha⟩ := toNumFill0_isNum w
    rw [ha]
    exact vmin_clamp_idem a rv

theorem cleanActivityRow_get_other (cols : List String) (r : Row)
    (p : String × (Value → Value)) (hp : p ∈ activityRules) (hpc : p.1 ∈ cols)
    (h1 : p.1 ≠ "monthly_active_users") (h2 : p.1 ≠ "paid_users") :
    (cleanActivityRow cols r).get? (colIdx cols p.1)
      = (r.get? (colIdx cols p.1)).map p.2 := by
  rw [cleanActivityRow_eq]
  rw [get?_clampCol_ne _ _ _ _ _
    (fun hq => colIdx_inj cols p.1 "paid_users" hpc hq h2)]
  rw [get?_clampCol_ne _ _ _ _ _
    (fun hq => colIdx_inj cols p.1 "monthly_active_users" hpc hq h1)]
  exact get?_applyRules_hit cols activityRules r p (by decide) hp hpc

theorem activityRules_idem : ∀ p ∈ activityRules, ∀ v, p.2 (p.2 v) = p.2 v := by
  intro p hp
  fin_cases hp
  · exact toNumIntC_idem
  · exact toNumIntC_idem
  · exact toNumIntC_idem
  · exact toNumFill0_idem
  · exact toNumFill0_idem
  · exact toNumFill0_idem
  · exact toNumFill0_idem
  · exact toNumFill0_idem
  · exact toNumFill0_idem
  · exact toNumFill0_idem
  · exact toNumFill0_idem
  · exact toNumFill0_idem
  · exact toNumFill0_idem
  · exact toNumFill0_idem

theorem plansRules_idem : ∀ p ∈ plansRules, ∀ v, p.2 (p.2 v) = p.2 v := by
  intro p hp
  fin_cases hp
  · exact toDateV_idem
  · exact toDateV_idem
  · exact toDateV_idem
  · exact toDateV_idem
  · exact cleanRevenueV_idem
  · exact cleanPlanNameV_idem
  · exact toBoolV_idem
  · exact toBoolV_idem
  · exact toBoolV_idem

theorem cleanActivityRow_idem (cols : List String) (r : Row) :
    cleanActivityRow cols (cleanActivityRow cols r) = cleanActivityRow cols r := by
  by_cases hru : "regular_users" ∈ cols
  · have hA : applyRules cols activityRules (cleanActivityRow cols r)
        = cleanActivityRow cols r := by
      apply applyRules_fix
      intro p hp hpc v hv
      fin_cases hp
      · rw [cleanActivityRow_get_other cols r ("contacts", toNumIntC)
          (by simp [activityRules]) hpc (by decide) (by decide)] at hv
        exact rule_fix_of_map _ toNumIntC_idem r _ v hv
      · rw [cleanActivityRow_get_other cols r ("tags", toNumIntC)
          (by simp [activityRules]) hpc (by decide) (by decide)] at hv
        exact rule_fix_of_map _ toNumIntC_idem r _ v hv
      · rw [cleanActivityRow_get_other cols r ("saved_replies", toNumIntC)
          (by simp [activityRules]) hpc (by decide) (by decide)] at hv
        exact rule_fix_of_map _ toNumIntC_idem r _ v hv
      · rw [cleanActivityRow_get_other cols r ("docs_sites", toNumFill0)
          (by simp [activityRules]) hpc (by decide) (by decide)] at hv
        exact rule_fix_of_map _ toNumFill0_idem r _ v hv
      · rw [cleanActivityRow_get_other cols r ("mailboxes", toNumFill0)
          (by simp [activityRules]) hpc (by decide) (by decide)] at hv
        exact rule_fix_of_map _ toNumFill0_idem r _ v hv
      · rw [cleanActivityRow_get_other cols r ("regular_users", toNumFill0)
          (by simp [activityRules]) hpc (by decide) (by decide)] at hv
        exact rule_fix_of_map _ toNumFill0_idem r _ v hv
      · rw [cleanActivityRow_get_mau cols r hpc hru] at hv
        exact toNumFill0_fix_of_map_clamped r _ _ v hv
      · rw [cleanActivityRow_get_paid cols r hpc hru] at hv
        exact toNumFill0_fix_of_map_clamped r _ _ v hv
      · rw [cleanActivityRow_get_other cols r ("workflows", toNumFill0)
          (by simp [activityRules]) hpc (by decide) (by decide)] at hv
        exact rule_fix_of_map _ toNumFill0_idem r _ v hv
      · rw [cleanActivityRow_get_other cols r ("integrations", toNumFill0)
          (by simp [activityRules]) hpc (by decide) (by decide)] at hv
        exact rule_fix_of_map _ toNumFill0_idem r _ v hv
      · rw [cleanActivityRow_get_other cols r ("beacons", toNumFill0)
          (by simp [activityRules]) hpc (by decide) (by decide)] at hv
        exact rule_fix_of_map _ toNumFill0_idem r _ v hv
      · rw [cleanActivityRow_get_other cols r ("light_users", toNumFill0)
          (by simp [activityRules]) hpc (by decide) (by decide)] at hv
        exact rule_fix_of_map _ toNumFill0_idem r _ v hv
      · rw [cleanActivityRow_get_other cols r ("all_answers_contacts", toNumFill0)
          (by simp [activityRules]) hpc (by decide) (by decide)] at hv
        exact rule_fix_of_map _ toNumFill0_idem r _ v hv
      · rw [cleanActivityRow_get_other cols r ("all_resolutions", toNumFill0)
          (by simp [activityRules]) hpc (by decide) (by decide)] at hv
        exact rule_fix_of_map _ toNumFill0_idem r _ v hv
    have hB : clampCol cols "monthly_active_users" "regular_users"
        (cleanActivityRow cols r) = cleanActivityRow cols r := by
      unfold clampCol
      split_ifs with hg
      · apply modAt_fix
        intro v hv
        rw [cleanActivityRow_get_mau cols r hg.1 hg.2] at hv
        have hgir : getV (cleanActivityRow cols r) (colIdx cols "regular_users")
            = ((r.get? (colIdx cols "regular_users")).map toNumFill0).getD Value.null := by
          unfold getV
          rw [cleanActivityRow_get_ru cols r hg.2]
        rw [hgir]
        exact clamp_fix_of_map r _ _ v hv
      · rfl
    have hC : clampCol cols "paid_users" "regular_users"
        (cleanActivityRow cols r) = cleanActivityRow cols r := by
      unfold clampCol
      split_ifs with hg
      · apply modAt_fix
        intro v hv
        rw [cleanActivityRow_get_paid cols r hg.1 hg.2] at hv
        have hgir : getV (cleanActivityRow cols r) (colIdx cols "regular_users")
            = ((r.get? (colIdx cols "regular_users")).map toNumFill0).getD Value.null := by
          unfold getV
          rw [cleanActivityRow_get_ru cols r hg.2]
        rw [hgir]
        exact clamp_fix_of_map r _ _ v hv
      · rfl
    calc cleanActivityRow cols (cleanActivityRow cols r)
        = clampCol cols "paid_users" "regular_users"
            (clampCol cols "monthly_active_users" "regular_users"
              (applyRules cols activityRules (cleanActivityRow cols r))) :=
          cleanActivityRow_eq cols (cleanActivityRow cols r)
      _ = clampCol cols "paid_users" "regular_users"
            (clampCol cols "monthly_active_users" "regular_users"
              (cleanActivityRow cols r)) := by rw [hA]
      _ = clampCol cols "paid_users" "regular_users" (cleanActivityRow cols r) := by
            rw [hB]
      _ = cleanActivityRow cols r := hC
  · have e : ∀ s, cleanActivityRow cols s = applyRules cols activityRules s := by
      intro s
      rw [cleanActivityRow_eq]
      rw [clampCol_skip _ _ _ _ (fun hcc => hru hcc.2)]
      rw [clampCol_skip _ _ _ _ (fun hcc => hru hcc.2)]
    rw [e (cleanActivityRow cols r), e r]
    exact applyRules_idem cols activityRules r (by decide) activityRules_idem

theorem cleanActivity_idem (t : Table) :
    cleanActivity (cleanActivity t) = cleanActivity t := by
  show (⟨t.cols, ((t.rows.map (cleanActivityRow t.cols)).map (cleanActivityRow t.cols))⟩
    : Table) = ⟨t.cols, t.rows.map (cleanActivityRow t.cols)⟩
  rw [List.map_map]
  congr 1
  apply map_congr_mem
  intro r _
  exact cleanActivityRow_idem t.cols r

theorem cleanPlans_idem (t : Table) : cleanPlans (cleanPlans t) = cleanPlans t := by
  show (⟨t.cols, ((t.rows.map (applyRules t.cols plansRules)).map
      (applyRules t.cols plansRules))⟩ : Table)
    = ⟨t.cols, t.rows.map (applyRules t.cols plansRules)⟩
  rw [List.map_map]
  congr 1
  apply map_congr_mem
  intro r _
  exact applyRules_idem t.cols plansRules r (by decide) plansRules_idem

theorem dedupGo_cons (i : Nat) (seen : List Value) (r : Row) (rs : List Row) :
    dedupGo i seen (r :: rs)
      = if getV r i ∈ seen then dedupGo i seen rs
        else r :: dedupGo i (getV r i :: seen) rs := rfl

theorem dedupGo_idem (i : Nat) (l : List Row) :
    ∀ seen, dedupGo i seen (dedupGo i seen l) = dedupGo i seen l := by
  induction l with
  | nil => intro seen; rfl
  | cons r rs ih =>
    intro seen
    by_cases h : getV r i ∈ seen
    · rw [dedupGo_cons, if_pos h]
      exact ih seen
    · rw [dedupGo_cons, if_neg h, dedupGo_cons, if_neg h]
      rw [ih (getV r i :: seen)]

theorem dedupGo_map (i : Nat) (h : Row → Row) (hk : ∀ r, getV (h r) i = getV r i)
    (l : List Row) :
    ∀ seen, dedupGo i seen (l.map h) = (dedupGo i seen l).map h := by
  induction l with
  | nil => intro seen; rfl
  | cons r rs ih =>
    intro seen
    rw [List.map_cons, dedupGo_cons, dedupGo_cons, hk r]
    by_cases hm : getV r i ∈ seen
    · rw [if_pos hm, if_pos hm]
      exact ih seen
    · rw [if_neg hm, if_neg hm]
      rw [List.map_cons, ih (getV r i :: seen)]

theorem cleanCustomersE_idem (t t' : Table) (h : cleanCustomersE t = Except.ok t') :
    cleanCustomersE t' = Except.ok t' := by
  unfold cleanCustomersE at h
  split_ifs at h with hname hid
  · have ht' : t' = ⟨t.cols, dedupGo (colIdx t.cols "customer_id") []
        (t.rows.map (modAt (colIdx t.cols "customer_name") fillUnknownV))⟩ := by
      cases h; rfl
    subst ht'
    unfold cleanCustomersE
    rw [if_pos hname, if_pos hid]
    have hFkey : ∀ r, getV (modAt (colIdx t.cols "customer_name") fillUnknownV r)
        (colIdx t.cols "customer_id") = getV r (colIdx t.cols "customer_id") := by
      intro r
      unfold getV
      rw [get?_modAt_ne _ _ _ _
        (colIdx_inj t.cols "customer_id" "customer_name" hid hname (by decide))]
    have hFF : ∀ r, modAt (colIdx t.cols "customer_name") fillUnknownV
        (modAt (colIdx t.cols "customer_name") fillUnknownV r)
        = modAt (colIdx t.cols "customer_name") fillUnknownV r := by
      intro r
      rw [modAt_modAt]
      exact modAt_congr _ _ _ _ (fun v => fillUnknownV_idem v)
    show Except.ok (⟨t.cols, dedupGo (colIdx t.cols "customer_id") []
        ((dedupGo (colIdx t.cols "customer_id") []
          (t.rows.map (modAt (colIdx t.cols "customer_name") fillUnknownV))).map
            (modAt (colIdx t.cols "customer_name") fillUnknownV))⟩ : Table)
      = Except.ok (⟨t.cols, dedupGo (colIdx t.cols "customer_id") []
          (t.rows.map (modAt (colIdx t.cols "customer_name") fillUnknownV))⟩ : Table)
    have key : dedupGo (colIdx t.cols "customer_id") []
        ((dedupGo (colIdx t.cols "customer_id") []
          (t.rows.map (modAt (colIdx t.cols "customer_name") fillUnknownV))).map
            (modAt (colIdx t.cols "customer_name") fillUnknownV))
        = dedupGo (colIdx t.cols "customer_id") []
            (t.rows.map (modAt (colIdx t.cols "customer_name") fillUnknownV)) := by
      rw [← dedupGo_map (colIdx t.cols "customer_id")
        (modAt (colIdx t.cols "customer_name") fillUnknownV) hFkey _ []]
      have hmm2 : (t.rows.map (modAt (colIdx t.cols "customer_name") fillUnknownV)).map
          (modAt (colIdx t.cols "customer_name") fillUnknownV)
          = t.rows.map (modAt (colIdx t.cols "customer_name") fillUnknownV) := by
        rw [List.map_map]
        exact map_congr_mem _ _ _ (fun r _ => hFF r)
      rw [hmm2]
      exact dedupGo_idem _ _ []
    rw [key]

theorem cleanTable_idem (n : String) (t t' : Table)
    (h : cleanTable n t = Except.ok t') : cleanTable n t' = Except.ok t' := by
  unfold cleanTable at h ⊢
  split_ifs at h ⊢ with h1 h2 h3
  · exact cleanCustomersE_idem t t' h
  · cases h; rw [cleanActivity_idem]
  · cases h; rw [cleanPlans_idem]
  · cases h; rfl

/-- C9: cleaning is idempotent. Applying clean_data to an output of
clean_data returns that output unchanged: the fill, dedup, numeric
coercion, date parsing, currency stripping, plan-name mapping, boolean
coercion and clamping rules are all fixed on their own outputs. -/
theorem c9_clean_idempotent (raw c : List (String × Table))
    (h : cleanData raw = Except.ok c) : cleanData c = Except.ok c := by
  induction raw generalizing c with
  | nil => cases h; rfl
  | cons p rest ih =>
    obtain ⟨n, t⟩ := p
    unfold cleanData at h
    cases ht : cleanTable n t with
    | error e => rw [ht] at h; cases h
    | ok t' =>
      rw [ht] at h
      cases hr : cleanData rest with
      | error e => rw [hr] at h; cases h
      | ok rest' =>
        rw [hr] at h
        cases h
        unfold cleanData
        rw [cleanTable_idem n t t' ht, ih rest' hr]

/-- Witness for C9: one full cleaning pass on a dirty concrete input,
re-cleaned without change. -/
theorem c9_clean_idempotent_witness :
    cleanData c9Raw = Except.ok c9Clean ∧ cleanData c9Clean = Except.ok c9Clean :=
  ⟨by decide, c9_clean_idempotent c9Raw c9Clean (by decide)⟩

